import Mathlib

/-!
Verification development for the z2-fighter repository.

The definitions below are a shallow embedding of the deterministic game
simulation (source file src/simulation.js, bundled inside src/rollback.js),
the game-state factory (src/state.js), the tuning constants
(src/constants.js) and the rollback netcode manager (src/rollback.js).
All coordinates and gameplay quantities in the source are integers
(positions move by integer speeds, clamps and ranges are integer
constants), so they are modelled with Int; frame counters and timers are
Nat.  The only floating-point computation in the simulation is the
render-only sine arc for the boomerang y coordinate on flight paths 1 and
4; no gameplay logic reads the y coordinate, and it is omitted from the
embedding (a comment marks the spot).
-/

-- ═══════════════ Constants (src/constants.js) ═══════════════

def CANVAS_WIDTH : Int := 800
def GROUND_Y : Int := 320
def ARENA_LEFT : Int := 20
def ARENA_RIGHT : Int := 780

def PLAYER_WIDTH : Int := 48

def MOVE_SPEED : Int := 3
def MAX_HP : Int := 5
def HITSTUN_FRAMES : Nat := 30
def BLOCKSTUN_FRAMES : Nat := 15
def HITSTOP_HIT : Nat := 6
def HITSTOP_BLOCK : Nat := 4

def BOOMERANG_RANGE : Int := 400
def BOOMERANG_MAX : Int := 10

-- ═══════════════ Input snapshots (src/state.js) ═══════════════

/-- Input snapshot: six boolean intents, as produced by createEmptyInput in
src/state.js and consumed by the simulation and the rollback manager. -/
structure Input where
  left : Bool
  right : Bool
  crouch : Bool
  weapon1 : Bool
  weapon2 : Bool
  weapon3 : Bool
deriving DecidableEq

def createEmptyInput : Input :=
  { left := false, right := false, crouch := false,
    weapon1 := false, weapon2 := false, weapon3 := false }

/-- Field-by-field input equality, function inputsEqual in src/rollback.js.
It compares exactly the six intent fields, which is full equality of the
Input structure. -/
def inputsEqual (a b : Input) : Bool :=
  a.left == b.left && a.right == b.right && a.crouch == b.crouch &&
  a.weapon1 == b.weapon1 && a.weapon2 == b.weapon2 && a.weapon3 == b.weapon3

-- ═══════════════ Enumerations of the string constants in the source ═══════════════

/-- Stance strings standing and crouching. -/
inductive Stance | standing | crouching
deriving DecidableEq

/-- Action-state strings idle, attacking, hitstun, blockstun (field state of
a player object). -/
inductive PState | idle | attacking | hitstun | blockstun
deriving DecidableEq

/-- Weapon type strings melee and projectile. -/
inductive WeaponType | melee | projectile
deriving DecidableEq

/-- Weapon subtype strings boomerang and knife; melee weapons carry no
subtype key, modelled as Option.none at the use sites. -/
inductive WeaponSubtype | boomerang | knife
deriving DecidableEq

/-- Projectile kind strings knife and boomerang (field type of a projectile
object). -/
inductive ProjType | knife | boomerang
deriving DecidableEq

/-- Boomerang phase strings outbound and returning. -/
inductive Phase | outbound | returning
deriving DecidableEq

/-- Hit-detection height strings head, ankle and none. -/
inductive Height | head | ankle | none
deriving DecidableEq

/-- Melee attack height strings high and low, as passed to resolveHit. -/
inductive AttackHeight | high | low
deriving DecidableEq

/-- Keys of the WEAPON_DEFS table in src/constants.js. -/
inductive WeaponId | sword | dagger | spear | boomerang | throwingKnife
deriving DecidableEq

-- ═══════════════ Weapon definitions (src/constants.js) ═══════════════

/-- One entry of the WEAPON_DEFS table.  Fields absent from an entry in the
source (speed and projectileSpawnFrame for melee weapons; range, activeStart
and activeEnd for projectile weapons) are never read for that entry by the
simulation; they are modelled as 0. -/
structure WeaponDef where
  wtype : WeaponType
  subtype : Option WeaponSubtype
  range : Int
  attackFrames : Nat
  activeStart : Int
  activeEnd : Int
  damage : Int
  speed : Int
  projectileSpawnFrame : Int
deriving DecidableEq

def WEAPON_DEFS : WeaponId → WeaponDef
  | .sword =>
      { wtype := .melee, subtype := Option.none, range := 60, attackFrames := 24,
        activeStart := 7, activeEnd := 13, damage := 1, speed := 0,
        projectileSpawnFrame := 0 }
  | .dagger =>
      { wtype := .melee, subtype := Option.none, range := 35, attackFrames := 14,
        activeStart := 4, activeEnd := 8, damage := 1, speed := 0,
        projectileSpawnFrame := 0 }
  | .spear =>
      { wtype := .melee, subtype := Option.none, range := 90, attackFrames := 36,
        activeStart := 12, activeEnd := 20, damage := 1, speed := 0,
        projectileSpawnFrame := 0 }
  | .boomerang =>
      { wtype := .projectile, subtype := some .boomerang, range := 0,
        attackFrames := 18, activeStart := 0, activeEnd := 0, damage := 1,
        speed := 5, projectileSpawnFrame := 4 }
  | .throwingKnife =>
      { wtype := .projectile, subtype := some .knife, range := 0,
        attackFrames := 10, activeStart := 0, activeEnd := 0, damage := 1,
        speed := 8, projectileSpawnFrame := 2 }

-- ═══════════════ Player and game state (src/state.js) ═══════════════

/-- Player state object, function createPlayerState in src/state.js. -/
structure Player where
  x : Int
  facing : Int
  stance : Stance
  hp : Int
  weapons : List WeaponId
  state : PState
  stateTimer : Nat
  activeWeapon : Option WeaponId
  attackStance : Stance
  attackSpawned : Bool
  boomerangsHeld : Int
  crouchThrowCount : Nat
  standThrowCount : Nat
deriving DecidableEq

/-- Projectile object as pushed by spawnProjectile in src/simulation.js.
Knife objects in the source carry no flightPath, phase or distanceTraveled
keys and no knife code path reads them; they are modelled with the defaults
0, outbound, 0.  The render-only y coordinate (float sine arc on paths 1
and 4) is read by no simulation logic and is omitted. -/
structure Projectile where
  ptype : ProjType
  owner : Fin 2
  x : Int
  direction : Int
  speed : Int
  damage : Int
  flightPath : Nat
  phase : Phase
  distanceTraveled : Int
  height : Height
  active : Bool
deriving DecidableEq

/-- Whole-match simulation state, function createGameState in src/state.js.
The two-element players array is modelled as a pair indexed by Fin 2. -/
structure GameState where
  frame : Nat
  players : Player × Player
  projectiles : List Projectile
  winner : Int
  hitstop : Nat
  prevInputs : Input × Input
deriving DecidableEq

def GameState.player (s : GameState) (i : Fin 2) : Player :=
  if i = 0 then s.players.1 else s.players.2

def GameState.setPlayer (s : GameState) (i : Fin 2) (p : Player) : GameState :=
  if i = 0 then { s with players := (p, s.players.2) }
  else { s with players := (s.players.1, p) }

def GameState.prevInput (s : GameState) (i : Fin 2) : Input :=
  if i = 0 then s.prevInputs.1 else s.prevInputs.2

def createPlayerState (index : Fin 2) (weapons : List WeaponId) : Player :=
  { x := if index = 0 then 200 else 600,
    facing := if index = 0 then 1 else -1,
    stance := .standing,
    hp := MAX_HP,
    weapons := weapons,
    state := .idle,
    stateTimer := 0,
    activeWeapon := Option.none,
    attackStance := .standing,
    attackSpawned := false,
    boomerangsHeld := BOOMERANG_MAX,
    crouchThrowCount := 0,
    standThrowCount := 0 }

def createGameState (p1Weapons p2Weapons : List WeaponId) : GameState :=
  { frame := 0,
    players := (createPlayerState 0 p1Weapons, createPlayerState 1 p2Weapons),
    projectiles := [],
    winner := -1,
    hitstop := 0,
    prevInputs := (createEmptyInput, createEmptyInput) }

/-- Function cloneState in src/state.js performs a JSON round trip, a deep
copy; on the pure values of the embedding it is the identity. -/
def cloneState (s : GameState) : GameState := s

-- ═══════════════ Simulation helpers (src/simulation.js) ═══════════════

/-- Function applyDamage: clamp hp at 0, enter hitstun, set the long
hitstop. -/
def applyDamage (state : GameState) (playerIdx : Fin 2) (damage : Int) : GameState :=
  let p := state.player playerIdx
  { state.setPlayer playerIdx
      { p with hp := max 0 (p.hp - damage), state := .hitstun,
               stateTimer := HITSTUN_FRAMES }
    with hitstop := HITSTOP_HIT }

/-- Function resolveHit: melee blocking rule. -/
def resolveHit (state : GameState) (atkIdx defIdx : Fin 2)
    (attackHeight : AttackHeight) (damage : Int) : GameState :=
  let atk := state.player atkIdx
  let defender := state.player defIdx
  let defCX := defender.x + PLAYER_WIDTH / 2
  let atkCX := atk.x + PLAYER_WIDTH / 2
  let facingAttacker :=
    (defender.facing = 1 ∧ atkCX > defCX) ∨ (defender.facing = -1 ∧ atkCX < defCX)
  let shieldHigh := defender.stance = .standing
  let blocked := facingAttacker ∧
    ((attackHeight = .high ∧ shieldHigh) ∨ (attackHeight = .low ∧ ¬ shieldHigh))
  if blocked then
    { state.setPlayer defIdx
        { defender with state := .blockstun, stateTimer := BLOCKSTUN_FRAMES }
      with hitstop := HITSTOP_BLOCK }
  else
    applyDamage state defIdx damage

/-- Function isFacingProjectile: the defender faces against the travel
direction of the projectile. -/
def isFacingProjectile (defender : Player) (proj : Projectile) : Prop :=
  defender.facing = -proj.direction

instance (defender : Player) (proj : Projectile) :
    Decidable (isFacingProjectile defender proj) := by
  unfold isFacingProjectile; infer_instance

/-- Function tryAttack.  The source looks the weapon id up in WEAPON_DEFS
and returns on a failed lookup; an out-of-range loadout slot (undefined in
the source) is modelled by the Option.none case. -/
def tryAttack (state : GameState) (idx : Fin 2) (weaponId : Option WeaponId) :
    GameState :=
  match weaponId with
  | Option.none => state
  | some wid =>
    let p := state.player idx
    let wDef := WEAPON_DEFS wid
    if wDef.subtype = some .boomerang ∧ p.boomerangsHeld ≤ 0 then state
    else
      state.setPlayer idx
        { p with state := .attacking, stateTimer := wDef.attackFrames,
                 activeWeapon := some wid, attackStance := p.stance,
                 attackSpawned := false }

/-- Function boomerangOutboundHeight: paths 1 and 4 arc out of play. -/
def boomerangOutboundHeight (path : Nat) : Height :=
  if path = 1 ∨ path = 4 then .none
  else if path = 2 then .ankle else .head

/-- Function boomerangReturnHeight: 1 to ankle, 2 to head, 3 to ankle, 4 to
head. -/
def boomerangReturnHeight (path : Nat) : Height :=
  if path = 1 ∨ path = 3 then .ankle else .head

/-- Function spawnProjectile.  The caller guarantees activeWeapon is set;
an unset activeWeapon would be a failed table lookup in the source and is
modelled by the Option.none case. -/
def spawnProjectile (state : GameState) (idx : Fin 2) : GameState :=
  let p := state.player idx
  match p.activeWeapon with
  | Option.none => state
  | some wid =>
    let wDef := WEAPON_DEFS wid
    let spawnX := p.x + (if p.facing = 1 then PLAYER_WIDTH else 0)
    if wDef.subtype = some .boomerang then
      if p.boomerangsHeld ≤ 0 then state
      else
        let path : Nat :=
          if p.attackStance = .crouching then
            (if p.crouchThrowCount % 2 = 0 then 1 else 2)
          else
            (if p.standThrowCount % 2 = 0 then 3 else 4)
        let p2 :=
          if p.attackStance = .crouching then
            { p with boomerangsHeld := p.boomerangsHeld - 1,
                     crouchThrowCount := p.crouchThrowCount + 1 }
          else
            { p with boomerangsHeld := p.boomerangsHeld - 1,
                     standThrowCount := p.standThrowCount + 1 }
        let proj : Projectile :=
          { ptype := .boomerang, owner := idx, x := spawnX,
            direction := p.facing, speed := wDef.speed, damage := wDef.damage,
            flightPath := path, phase := .outbound, distanceTraveled := 0,
            height := boomerangOutboundHeight path, active := true }
        let state := state.setPlayer idx p2
        { state with projectiles := state.projectiles ++ [proj] }
    else if wDef.subtype = some .knife then
      let isLow := p.attackStance = .crouching
      let proj : Projectile :=
        { ptype := .knife, owner := idx, x := spawnX,
          direction := p.facing, speed := wDef.speed, damage := wDef.damage,
          flightPath := 0, phase := .outbound, distanceTraveled := 0,
          height := if isLow then .ankle else .head, active := true }
      { state with projectiles := state.projectiles ++ [proj] }
    else state

/-- Rising-edge weapon-slot scan: the loop over weapon1..weapon3 in
updatePlayer, which calls tryAttack on the first slot pressed now and not
pressed on the previous tick, then breaks. -/
def risingWeaponSlot (input prev : Input) : Option Nat :=
  if input.weapon1 && !prev.weapon1 then some 0
  else if input.weapon2 && !prev.weapon2 then some 1
  else if input.weapon3 && !prev.weapon3 then some 2
  else Option.none

/-- Timer-tick section of updatePlayer: count the action-state timer down
and return to idle on expiry of attacking, hitstun or blockstun, clearing
the active weapon and the spawn flag. -/
def playerTimerStep (p : Player) : Player :=
  if p.stateTimer > 0 then
    let p := { p with stateTimer := p.stateTimer - 1 }
    if p.stateTimer = 0 ∧
        (p.state = .attacking ∨ p.state = .hitstun ∨ p.state = .blockstun) then
      { p with state := .idle, activeWeapon := Option.none, attackSpawned := false }
    else p
  else p

/-- Stance, facing and movement section of updatePlayer: allowed when idle
or attacking, stance and facing mutable only when idle, horizontal movement
only while standing, position clamped to the arena. -/
def playerMoveStep (p : Player) (input : Input) : Player :=
  if p.state = .idle ∨ p.state = .attacking then
    let p :=
      if p.state = .idle then
        { p with stance := if input.crouch then .crouching else .standing }
      else p
    let dx : Int := (if input.left then -1 else 0) + (if input.right then 1 else 0)
    if dx ≠ 0 then
      let p := if p.state = .idle then { p with facing := dx } else p
      if p.stance = .standing then
        let x := p.x + dx * MOVE_SPEED
        { p with x := max ARENA_LEFT (min (ARENA_RIGHT - PLAYER_WIDTH) x) }
      else p
    else p
  else p

/-- Attack-trigger section of updatePlayer: only when idle, on the rising
edge of the first pressed weapon slot.  The guard reads the player stored
by the preceding movement section. -/
def playerAttackStep (state : GameState) (idx : Fin 2) (input : Input) :
    GameState :=
  if (state.player idx).state = .idle then
    match risingWeaponSlot input (state.prevInput idx) with
    | some w => tryAttack state idx ((state.player idx).weapons.get? w)
    | Option.none => state
  else state

/-- Projectile-spawn section of updatePlayer: while attacking with a
projectile weapon not yet spawned, spawn once the elapsed frames reach the
spawn threshold and mark the attack as spawned. -/
def projectileSpawnStep (state : GameState) (idx : Fin 2) : GameState :=
  let p := state.player idx
  if p.state = .attacking ∧ p.attackSpawned = false then
    match p.activeWeapon with
    | Option.none => state
    | some wid =>
      let wDef := WEAPON_DEFS wid
      if wDef.wtype = .projectile then
        let elapsed : Int := (wDef.attackFrames : Int) - (p.stateTimer : Int)
        if elapsed ≥ wDef.projectileSpawnFrame then
          let state := spawnProjectile state idx
          let q := state.player idx
          state.setPlayer idx { q with attackSpawned := true }
        else state
      else state
  else state

/-- Function updatePlayer: timer tick, stance and movement, edge-triggered
attack start, delayed projectile spawn, in the order of the source. -/
def updatePlayer (state : GameState) (idx : Fin 2) (input : Input) : GameState :=
  let state :=
    state.setPlayer idx (playerMoveStep (playerTimerStep (state.player idx)) input)
  let state := playerAttackStep state idx input
  projectileSpawnStep state idx

/-- Symmetric push-apart section of resolvePlayerCollision.  The source
computes half with Math.ceil(overlap / 2); overlap is a positive integer in
the branch where it is used, so this is (overlap + 1) / 2 in integer
division. -/
def pushApart (a b : Player) : Player × Player :=
  let overlap := min (a.x + PLAYER_WIDTH - b.x) (b.x + PLAYER_WIDTH - a.x)
  let half := (overlap + 1) / 2
  if a.x < b.x ∨ (a.x = b.x ∧ a.facing = -1) then
    ({ a with x := a.x - half }, { b with x := b.x + (overlap - half) })
  else
    ({ a with x := a.x + (overlap - half) }, { b with x := b.x - half })

/-- Wall-transfer loop of resolvePlayerCollision, first iteration: a wall
correction applied to player a is transferred to player b. -/
def wallShiftA (ab : Player × Player) : Player × Player :=
  let a := ab.1
  let b := ab.2
  let ab :=
    if a.x < ARENA_LEFT then
      ({ a with x := ARENA_LEFT }, { b with x := b.x + (ARENA_LEFT - a.x) })
    else (a, b)
  let a := ab.1
  let b := ab.2
  if a.x > ARENA_RIGHT - PLAYER_WIDTH then
    ({ a with x := ARENA_RIGHT - PLAYER_WIDTH },
     { b with x := b.x - (a.x - (ARENA_RIGHT - PLAYER_WIDTH)) })
  else (a, b)

/-- Wall-transfer loop of resolvePlayerCollision, second iteration: a wall
correction applied to player b is transferred to player a. -/
def wallShiftB (ab : Player × Player) : Player × Player :=
  let a := ab.1
  let b := ab.2
  let ab :=
    if b.x < ARENA_LEFT then
      ({ a with x := a.x + (ARENA_LEFT - b.x) }, { b with x := ARENA_LEFT })
    else (a, b)
  let a := ab.1
  let b := ab.2
  if b.x > ARENA_RIGHT - PLAYER_WIDTH then
    ({ a with x := a.x - (b.x - (ARENA_RIGHT - PLAYER_WIDTH)) },
     { b with x := ARENA_RIGHT - PLAYER_WIDTH })
  else (a, b)

/-- Final safety clamp of resolvePlayerCollision: both positions clamped to
the arena. -/
def clampPair (ab : Player × Player) : Player × Player :=
  ({ ab.1 with x := max ARENA_LEFT (min (ARENA_RIGHT - PLAYER_WIDTH) ab.1.x) },
   { ab.2 with x := max ARENA_LEFT (min (ARENA_RIGHT - PLAYER_WIDTH) ab.2.x) })

/-- Function resolvePlayerCollision: push overlapping bodies apart
symmetrically, transfer wall corrections to the other player, final clamp,
in the order of the source (the two wall-transfer iterations are the loop
over both players). -/
def resolvePlayerCollision (state : GameState) : GameState :=
  let a := state.players.1
  let b := state.players.2
  if a.x + PLAYER_WIDTH ≤ b.x ∨ b.x + PLAYER_WIDTH ≤ a.x then state
  else
    { state with players := clampPair (wallShiftB (wallShiftA (pushApart a b))) }

/-- Function updateBoomerang: advance, flip to the return leg at range,
catch by the owner within 28 pixels of the body center, deactivate
off-screen.  On the outbound leg the source also updates the render-only y
coordinate of paths 1 and 4 with a float sine arc; no simulation logic
reads y and the computation is omitted here. -/
def updateBoomerang (state : GameState) (proj : Projectile) :
    GameState × Projectile :=
  let proj := { proj with
      x := proj.x + proj.direction * proj.speed,
      distanceTraveled := proj.distanceTraveled + proj.speed }
  match proj.phase with
  | .outbound =>
    if proj.distanceTraveled ≥ BOOMERANG_RANGE then
      (state, { proj with phase := .returning, direction := proj.direction * (-1),
                          distanceTraveled := 0,
                          height := boomerangReturnHeight proj.flightPath })
    else (state, proj)
  | .returning =>
    let owner := state.player proj.owner
    let ownerCX := owner.x + PLAYER_WIDTH / 2
    if |proj.x - ownerCX| < 28 then
      (state.setPlayer proj.owner
         { owner with boomerangsHeld := min (owner.boomerangsHeld + 1) BOOMERANG_MAX },
       { proj with active := false })
    else if proj.x < -50 ∨ proj.x > CANVAS_WIDTH + 50 then
      (state, { proj with active := false })
    else (state, proj)

/-- Body of the loop in updateProjectiles for one projectile. -/
def stepProjectile (state : GameState) (proj : Projectile) :
    GameState × Projectile :=
  if proj.active = false then (state, proj)
  else
    match proj.ptype with
    | .knife =>
      let proj := { proj with x := proj.x + proj.direction * proj.speed }
      let proj :=
        if proj.x < -50 ∨ proj.x > CANVAS_WIDTH + 50 then
          { proj with active := false }
        else proj
      (state, proj)
    | .boomerang => updateBoomerang state proj

/-- Sequential pass of stepProjectile over the projectile list, threading
the game state (boomerang catches update the owner ammo mid-pass). -/
def runProjectilesList (state : GameState) :
    List Projectile → GameState × List Projectile
  | [] => (state, [])
  | proj :: rest =>
    let sp := stepProjectile state proj
    let sr := runProjectilesList sp.1 rest
    (sr.1, sp.2 :: sr.2)

/-- Function updateProjectiles. -/
def updateProjectiles (state : GameState) : GameState :=
  let sr := runProjectilesList state state.projectiles
  { sr.1 with projectiles := sr.2 }

/-- Body of the loop in checkMeleeHits for one attacker index. -/
def meleeCheckFor (state : GameState) (i : Fin 2) : GameState :=
  let atk := state.player i
  if atk.state ≠ .attacking then state
  else
    match atk.activeWeapon with
    | Option.none => state
    | some wid =>
      let wDef := WEAPON_DEFS wid
      if wDef.wtype ≠ .melee then state
      else
        let elapsed : Int := (wDef.attackFrames : Int) - (atk.stateTimer : Int)
        -- Only register hit on first active frame (prevents multi-hit)
        if elapsed ≠ wDef.activeStart then state
        else
          let defender := state.player (1 - i)
          if defender.state = .hitstun then state
          else
            let atkEdge := atk.x + (if atk.facing = 1 then PLAYER_WIDTH else 0)
            let defNear := if atk.facing = 1 then defender.x
                           else defender.x + PLAYER_WIDTH
            let dist := (defNear - atkEdge) * atk.facing
            if dist < -PLAYER_WIDTH ∨ dist > wDef.range then state
            else
              let attackHeight : AttackHeight :=
                if atk.attackStance = .standing then .high else .low
              resolveHit state i (1 - i) attackHeight wDef.damage

/-- Function checkMeleeHits: both attacker indices, in order. -/
def checkMeleeHits (state : GameState) : GameState :=
  meleeCheckFor (meleeCheckFor state 0) 1

/-- Body of the loop in checkProjectileHits for one projectile.  The inner
two-iteration player loop of the source skips the owner with continue and
breaks after handling the other player, so it visits exactly the non-owner
index. -/
def projectileHitCheck (state : GameState) (proj : Projectile) :
    GameState × Projectile :=
  if proj.active = false ∨ proj.height = Height.none then (state, proj)
  else
    let i : Fin 2 := 1 - proj.owner
    let defender := state.player i
    if defender.state = .hitstun then (state, proj)
    else if proj.x < defender.x ∨ proj.x > defender.x + PLAYER_WIDTH then
      (state, proj)
    else
      match proj.height with
      | .head =>
        -- Head-level: passes over crouching players entirely
        if defender.stance = .crouching then (state, proj)
        else if isFacingProjectile defender proj then
          ({ state.setPlayer i
               { defender with state := .blockstun, stateTimer := BLOCKSTUN_FRAMES }
             with hitstop := HITSTOP_BLOCK },
           { proj with active := false })
        else
          (applyDamage state i proj.damage, { proj with active := false })
      | .ankle =>
        if defender.stance = .standing then
          -- Standing shield is high and cannot block ankle
          (applyDamage state i proj.damage, { proj with active := false })
        else if isFacingProjectile defender proj then
          ({ state.setPlayer i
               { defender with state := .blockstun, stateTimer := BLOCKSTUN_FRAMES }
             with hitstop := HITSTOP_BLOCK },
           { proj with active := false })
        else
          (applyDamage state i proj.damage, { proj with active := false })
      | .none => (state, proj)

/-- Sequential pass of projectileHitCheck over the projectile list. -/
def runHitsList (state : GameState) :
    List Projectile → GameState × List Projectile
  | [] => (state, [])
  | proj :: rest =>
    let sp := projectileHitCheck state proj
    let sr := runHitsList sp.1 rest
    (sr.1, sp.2 :: sr.2)

/-- Function checkProjectileHits. -/
def checkProjectileHits (state : GameState) : GameState :=
  let sr := runHitsList state state.projectiles
  { sr.1 with projectiles := sr.2 }

/-- Function checkWin. -/
def checkWin (state : GameState) : GameState :=
  let p1Dead := state.players.1.hp ≤ 0
  let p2Dead := state.players.2.hp ≤ 0
  if p1Dead ∧ p2Dead then { state with winner := 2 }
  else if p1Dead then { state with winner := 1 }
  else if p2Dead then { state with winner := 0 }
  else state

/-- Per-player update loop of simulateFrame: player 0 with the first input,
then player 1 with the second. -/
def updateBothPlayers (s : GameState) (p1Input p2Input : Input) : GameState :=
  updatePlayer (updatePlayer s 0 p1Input) 1 p2Input

/-- Function simulateFrame in src/simulation.js: the pure, deterministic
Simulation Step. -/
def simulateFrame (state : GameState) (p1Input p2Input : Input) : GameState :=
  let s := cloneState state
  if s.winner ≠ -1 then s
  else if s.hitstop > 0 then
    { s with hitstop := s.hitstop - 1, frame := s.frame + 1 }
  else
    let s := updateBothPlayers s p1Input p2Input
    let s := resolvePlayerCollision s
    let s := updateProjectiles s
    let s := checkMeleeHits s
    let s := checkProjectileHits s
    let s := checkWin s
    let s := { s with projectiles := s.projectiles.filter (fun p => p.active) }
    { s with prevInputs := (p1Input, p2Input), frame := s.frame + 1 }

-- ═══════════════ Rollback netcode (src/rollback.js) ═══════════════

/-- Modelled from the spec: the constant C.ROLLBACK_INPUT_DELAY is read by
src/rollback.js but the constants module in the repository snapshot does
not define it.  The spec fixes only that it is a fixed local input delay of
a few ticks (a tunable parameter, identical on both peers); the value 3 is
used here. -/
def ROLLBACK_INPUT_DELAY : Nat := 3

/-- Modelled from the spec: the constant C.ROLLBACK_INPUT_REDUNDANCY is
read by src/rollback.js but not defined in the repository snapshot.  The
spec fixes only that a message carries a small redundant window of recent
inputs; the value 8 is used here. -/
def ROLLBACK_INPUT_REDUNDANCY : Nat := 8

/-- Modelled from the spec: the constant C.ROLLBACK_MAX_FRAMES is read by
src/rollback.js but not defined in the repository snapshot.  The spec fixes
only that it is the maximum rollback depth, bounded by the state-history
capacity (32 in the source); the value 30 is used here. -/
def ROLLBACK_MAX_FRAMES : Nat := 30

/-- Ring buffer InputHistory in src/rollback.js.  The buf and frames arrays
of fixed size are modelled as functions of the slot index; frames is
initialised to -1 everywhere, hence Int-valued. -/
structure InputHistory where
  size : Nat
  buf : Nat → Option Input
  frames : Nat → Int

def InputHistory.empty (size : Nat := 128) : InputHistory :=
  { size := size, buf := fun _ => Option.none, frames := fun _ => -1 }

def InputHistory.set (h : InputHistory) (frame : Nat) (input : Input) :
    InputHistory :=
  let idx := frame % h.size
  { h with buf := fun j => if j = idx then some input else h.buf j,
           frames := fun j => if j = idx then (frame : Int) else h.frames j }

def InputHistory.get (h : InputHistory) (frame : Nat) : Option Input :=
  let idx := frame % h.size
  if h.frames idx = (frame : Int) then h.buf idx else Option.none

/-- Scan of getLastConfirmed: walk f downward from frame - 1 to the lower
bound max(0, frame - size), returning the first stored input.  The fuel
argument counts the remaining loop iterations. -/
def InputHistory.scanBack (h : InputHistory) (lo : Nat) :
    Nat → Nat → Input
  | 0, _ => createEmptyInput
  | fuel + 1, f =>
    match h.get f with
    | some inp => inp
    | Option.none =>
      if f ≤ lo then createEmptyInput
      else h.scanBack lo fuel (f - 1)

/-- Method getLastConfirmed: the most recent stored input before frame,
falling back to the neutral snapshot. -/
def InputHistory.getLastConfirmed (h : InputHistory) (frame : Nat) : Input :=
  if frame = 0 then createEmptyInput
  else h.scanBack (frame - h.size) (min frame h.size) (frame - 1)

/-- Ring buffer StateHistory in src/rollback.js; save deep-copies via
cloneState, the identity on pure values. -/
structure StateHistory where
  size : Nat
  buf : Nat → Option GameState
  frames : Nat → Int

def StateHistory.empty (size : Nat := 32) : StateHistory :=
  { size := size, buf := fun _ => Option.none, frames := fun _ => -1 }

def StateHistory.save (h : StateHistory) (frame : Nat) (state : GameState) :
    StateHistory :=
  let idx := frame % h.size
  { h with buf := fun j => if j = idx then some (cloneState state) else h.buf j,
           frames := fun j => if j = idx then (frame : Int) else h.frames j }

def StateHistory.load (h : StateHistory) (frame : Nat) : Option GameState :=
  let idx := frame % h.size
  if h.frames idx = (frame : Int) then (h.buf idx).map cloneState
  else Option.none

/-- Redundant-input message, shape sent and received by the manager. -/
structure InputMsg where
  startFrame : Int
  inputs : List Input

/-- Class RollbackManager in src/rollback.js.  The predictedRemote Map is
modelled as a function from frame number to an optional stored prediction;
the stats object is flattened into two counters. -/
structure RollbackManager where
  localInputs : InputHistory
  remoteInputs : InputHistory
  states : StateHistory
  predictedRemote : Nat → Option Input
  currentFrame : Nat
  lastConfirmedFrame : Int
  rollbackTarget : Option Nat
  statsRollbacks : Nat
  statsMaxDepth : Nat

/-- Seeding loop of reset: store the neutral input for the first
ROLLBACK_INPUT_DELAY frames in both input histories. -/
def seedInputs (h : InputHistory) : Nat → InputHistory
  | 0 => h
  | n + 1 => (seedInputs h n).set n createEmptyInput

/-- Method reset: fresh buffers, seeded startup inputs, initial snapshot at
frame 0. -/
def RollbackManager.reset (initialState : GameState) : RollbackManager :=
  { localInputs := seedInputs (InputHistory.empty 128) ROLLBACK_INPUT_DELAY,
    remoteInputs := seedInputs (InputHistory.empty 128) ROLLBACK_INPUT_DELAY,
    states := (StateHistory.empty 32).save 0 initialState,
    predictedRemote := fun _ => Option.none,
    currentFrame := 0,
    lastConfirmedFrame := -1,
    rollbackTarget := Option.none,
    statsRollbacks := 0,
    statsMaxDepth := 0 }

/-- Body of the loop in receiveInputs for one (frame, input) pair; frame is
startFrame - i and may be negative, in which case the source continues. -/
def receivePair (m : RollbackManager) (frame : Int) (input : Input) :
    RollbackManager :=
  if frame < 0 then m
  else
    let f := frame.toNat
    -- Only store if we do not already have confirmed input for this frame
    if (m.remoteInputs.get f).isSome then m
    else
      let m := { m with remoteInputs := m.remoteInputs.set f input }
      -- Update confirmed-frame watermark
      let m :=
        if (f : Int) > m.lastConfirmedFrame then
          { m with lastConfirmedFrame := (f : Int) }
        else m
      -- Check if we simulated this frame with a wrong prediction
      if f < m.currentFrame then
        match m.predictedRemote f with
        | some predicted =>
          if inputsEqual predicted input = false then
            match m.rollbackTarget with
            | Option.none => { m with rollbackTarget := some f }
            | some t => if f < t then { m with rollbackTarget := some f } else m
          else m
        | Option.none => m
      else m

/-- Loop of receiveInputs over the message pairs: the i-th input is for
frame startFrame - i. -/
def receiveLoop (m : RollbackManager) (frame : Int) :
    List Input → RollbackManager
  | [] => m
  | input :: rest => receiveLoop (receivePair m frame input) (frame - 1) rest

/-- Method receiveInputs. -/
def RollbackManager.receiveInputs (m : RollbackManager) (msg : InputMsg) :
    RollbackManager :=
  receiveLoop m msg.startFrame msg.inputs

/-- Loop building the redundant window in tick: inputs at sendFrame,
sendFrame - 1, ... until a gap, a negative frame (a missed lookup in the
source) or ROLLBACK_INPUT_REDUNDANCY entries. -/
def collectRedundant (h : InputHistory) (sendFrame : Nat) :
    Nat → Nat → List Input
  | 0, _ => []
  | left + 1, i =>
    if i > sendFrame then []
    else
      match h.get (sendFrame - i) with
      | some inp => inp :: collectRedundant h sendFrame left (i + 1)
      | Option.none => []

/-- Resimulation loop of performRollback: replay count frames starting at
frame f.  The source reads the local input with a plain lookup that cannot
miss for frames the manager has simulated (they were stored before
advancing); a missing value would be a runtime fault in the source and is
modelled by the neutral input. -/
def resimLoop (m : RollbackManager) (state : GameState) (isHost : Bool) :
    Nat → Nat → RollbackManager × GameState
  | _, 0 => (m, state)
  | f, count + 1 =>
    let myInput := (m.localInputs.get f).getD createEmptyInput
    let confirmed := m.remoteInputs.get f
    let theirInput :=
      match confirmed with
      | some inp => inp
      | Option.none => m.remoteInputs.getLastConfirmed f
    let m :=
      match confirmed with
      | some _ =>
        { m with predictedRemote := fun j =>
            if j = f then Option.none else m.predictedRemote j }
      | Option.none =>
        { m with predictedRemote := fun j =>
            if j = f then some theirInput else m.predictedRemote j }
    let m := { m with states := m.states.save f state }
    let p1 := if isHost then myInput else theirInput
    let p2 := if isHost then theirInput else myInput
    resimLoop m (simulateFrame state p1 p2) isHost (f + 1) count

/-- Method performRollback.  The source is only called with a non-null
rollback target; the none case returns unchanged. -/
def RollbackManager.performRollback (m : RollbackManager)
    (currentGameState : GameState) (isHost : Bool) :
    RollbackManager × GameState :=
  match m.rollbackTarget with
  | Option.none => (m, currentGameState)
  | some t0 =>
    let m := { m with rollbackTarget := Option.none }
    let depth := m.currentFrame - t0
    let target :=
      if depth > ROLLBACK_MAX_FRAMES then m.currentFrame - ROLLBACK_MAX_FRAMES
      else t0
    match m.states.load target with
    | Option.none => (m, currentGameState)
    | some restored =>
      let m := { m with statsRollbacks := m.statsRollbacks + 1,
                        statsMaxDepth := max m.statsMaxDepth depth }
      resimLoop m restored isHost target (m.currentFrame - target)

/-- Cleanup of prediction records older than the rollback window. -/
def RollbackManager.cleanupPredictions (m : RollbackManager) :
    RollbackManager :=
  let cutoff : Int := (m.currentFrame : Int) - (ROLLBACK_MAX_FRAMES : Int) - 1
  { m with predictedRemote := fun j =>
      if (j : Int) < cutoff then Option.none else m.predictedRemote j }

/-- Method tick.  The sendFn side effect is modelled by returning the
emitted message alongside the updated manager and the optional new game
state (null in the source when the delayed local input for the current
frame is missing). -/
def RollbackManager.tick (m : RollbackManager) (gameState : GameState)
    (localRawInput : Input) (isHost : Bool) :
    RollbackManager × Option GameState × InputMsg :=
  -- 1. Store local input at the delayed frame and build the message
  let sendFrame := m.currentFrame + ROLLBACK_INPUT_DELAY
  let m := { m with localInputs := m.localInputs.set sendFrame localRawInput }
  let redundant := collectRedundant m.localInputs sendFrame
      ROLLBACK_INPUT_REDUNDANCY 0
  let msg : InputMsg := { startFrame := (sendFrame : Int), inputs := redundant }
  -- 2. Do we have our own delayed input for currentFrame?
  match m.localInputs.get m.currentFrame with
  | Option.none => (m, Option.none, msg)
  | some myInput =>
    -- 3. Handle pending rollback
    let mg :=
      match m.rollbackTarget with
      | some _ => m.performRollback gameState isHost
      | Option.none => (m, gameState)
    let m := mg.1
    let gameState := mg.2
    -- 4. Get or predict remote input
    let confirmed := m.remoteInputs.get m.currentFrame
    let theirInput :=
      match confirmed with
      | some inp => inp
      | Option.none => m.remoteInputs.getLastConfirmed m.currentFrame
    let m :=
      match confirmed with
      | some _ =>
        { m with predictedRemote := fun j =>
            if j = m.currentFrame then Option.none else m.predictedRemote j }
      | Option.none =>
        { m with predictedRemote := fun j =>
            if j = m.currentFrame then some theirInput else m.predictedRemote j }
    -- 5. Save state snapshot, then simulate
    let m := { m with states := m.states.save m.currentFrame gameState }
    let p1 := if isHost then myInput else theirInput
    let p2 := if isHost then theirInput else myInput
    let gameState := simulateFrame gameState p1 p2
    -- 6. Advance and clean up
    let m := { m with currentFrame := m.currentFrame + 1 }
    let m := m.cleanupPredictions
    (m, some gameState, msg)

-- ═══════════════ Definitions used by the claims ═══════════════

/-- Count of active in-flight boomerangs owned by player i in a projectile
list. -/
def flightCount (i : Fin 2) : List Projectile → Nat
  | [] => 0
  | p :: rest =>
    (if p.active = true ∧ p.ptype = .boomerang ∧ p.owner = i then 1 else 0) +
      flightCount i rest

/-- Contribution of one projectile to the in-flight count of player i. -/
def projCount (p : Projectile) (i : Fin 2) : Nat :=
  if p.active = true ∧ p.ptype = .boomerang ∧ p.owner = i then 1 else 0

/-- Boomerang-conservation invariant: ammo held is never negative and ammo
plus active owned boomerangs in flight never exceeds the maximum. -/
def AmmoInv (s : GameState) : Prop :=
  ∀ i : Fin 2,
    0 ≤ (s.player i).boomerangsHeld ∧
    (s.player i).boomerangsHeld + (flightCount i s.projectiles : Int) ≤ BOOMERANG_MAX

/-- Game states reachable from an initial match state by Simulation Steps. -/
inductive ReachableG : GameState → Prop
  | init (w1 w2 : List WeaponId) : ReachableG (createGameState w1 w2)
  | step (s : GameState) (a b : Input) :
      ReachableG s → ReachableG (simulateFrame s a b)

/-- Manager states reachable from reset by any interleaving of tick and
receiveInputs calls. -/
inductive RMReached : RollbackManager → Prop
  | init (gs : GameState) : RMReached (RollbackManager.reset gs)
  | stepTick (m : RollbackManager) (gs : GameState) (inp : Input) (host : Bool) :
      RMReached m → RMReached (m.tick gs inp host).1
  | stepRecv (m : RollbackManager) (msg : InputMsg) :
      RMReached m → RMReached (m.receiveInputs msg)

/-- Iterated Simulation Steps over a list of per-tick input pairs. -/
def simSeq : GameState → List (Input × Input) → GameState
  | s, [] => s
  | s, ab :: rest => simSeq (simulateFrame s ab.1 ab.2) rest

/-- Input of player i in a per-tick input pair. -/
def pairInput (ab : Input × Input) (i : Fin 2) : Input :=
  if i = 0 then ab.1 else ab.2

/-- The two bodies do not overlap, so resolvePlayerCollision applies no
push-apart correction. -/
def noBodyOverlap (s : GameState) : Prop :=
  s.players.1.x + PLAYER_WIDTH ≤ s.players.2.x ∨
  s.players.2.x + PLAYER_WIDTH ≤ s.players.1.x

/-- Run of Simulation Steps in which player i holds the crouch intent on
every tick and no body push-apart correction occurs on any tick. -/
inductive CrouchRun (i : Fin 2) : GameState → List (Input × Input) → Prop
  | nil (s : GameState) : CrouchRun i s []
  | cons (s : GameState) (ab : Input × Input) (rest : List (Input × Input)) :
      (pairInput ab i).crouch = true →
      noBodyOverlap (updateBothPlayers s ab.1 ab.2) →
      CrouchRun i (simulateFrame s ab.1 ab.2) rest →
      CrouchRun i s (ab :: rest)

-- ═══════════════ Concrete scenario states ═══════════════

def demoWeapons : List WeaponId := [.sword, .dagger, .spear]

/-- Neutral demo match state. -/
def demoState : GameState := createGameState demoWeapons demoWeapons

/-- Scenario A attacker: standing, facing right, attacking with the Sword;
stateTimer 18 means the timer tick inside the Simulation Step brings the
elapsed frame count to 24 - 17 = 7, the first active frame. -/
def scenarioAAttacker : Player :=
  { createPlayerState 0 demoWeapons with
      state := .attacking, stateTimer := 18, activeWeapon := some .sword,
      attackStance := .standing }

/-- Scenario A defender: standing at x = 288, facing left toward the
attacker, horizontal distance 288 - (200 + 48) = 40 from the attack edge. -/
def scenarioADefender : Player :=
  { createPlayerState 1 demoWeapons with x := 288 }

def scenarioAState : GameState :=
  { demoState with players := (scenarioAAttacker, scenarioADefender) }

/-- Crouching idle player 0 for the facing-change scenario. -/
def crouchTurnState : GameState :=
  { demoState with
      players := ({ createPlayerState 0 demoWeapons with stance := .crouching },
                  createPlayerState 1 demoWeapons) }

def crouchTurnInput : Input :=
  { createEmptyInput with left := true, crouch := true }

/-- Walker at x = 555 one step from contact with a crouching idle defender
at x = 600. -/
def pushState : GameState :=
  { demoState with
      players := ({ createPlayerState 0 demoWeapons with x := 555 },
                  { createPlayerState 1 demoWeapons with stance := .crouching }) }

def pushInputA : Input := { createEmptyInput with right := true }

def pushInputB : Input := { createEmptyInput with crouch := true }

/-- Far-apart pair with player 1 crouching, for the crouch-lock run. -/
def crouchFarState : GameState :=
  { demoState with
      players := (createPlayerState 0 demoWeapons,
                  { createPlayerState 1 demoWeapons with stance := .crouching }) }

/-- Active ankle-height knife one step short of the defender. -/
def ankleKnife : Projectile :=
  { ptype := .knife, owner := 0, x := 300, direction := 1, speed := 8,
    damage := 1, flightPath := 0, phase := .outbound, distanceTraveled := 0,
    height := .ankle, active := true }

/-- Standing defender at x = 280 already in hitstun, with the ankle knife
in flight toward it. -/
def knifeHitstunState : GameState :=
  { demoState with
      players := (createPlayerState 0 demoWeapons,
                  { createPlayerState 1 demoWeapons with
                      x := 280, state := .hitstun, stateTimer := 10 }),
      projectiles := [ankleKnife] }

/-- Player 0 with the boomerang equipped, mid-attack from a crouch, ammo
zero, for the throw-refusal instance. -/
def zeroAmmoState : GameState :=
  { demoState with
      players := ({ createPlayerState 0 [.boomerang, .sword, .dagger] with
                      boomerangsHeld := 0, state := .attacking,
                      activeWeapon := some .boomerang,
                      attackStance := .crouching },
                  createPlayerState 1 demoWeapons) }

/-- Player 0 with the boomerang equipped, mid-attack from a crouch, full
ammo, for the spawn instances. -/
def throwReadyState : GameState :=
  { demoState with
      players := ({ createPlayerState 0 [.boomerang, .sword, .dagger] with
                      state := .attacking, activeWeapon := some .boomerang,
                      attackStance := .crouching },
                  createPlayerState 1 demoWeapons) }

def rightInput : Input := { createEmptyInput with right := true }

/-- Standing idle defender at x = 280 with the ankle knife in flight, for
instances of the projectile blocking rule. -/
def knifeFacingState : GameState :=
  { demoState with
      players := (createPlayerState 0 demoWeapons,
                  { createPlayerState 1 demoWeapons with x := 280 }),
      projectiles := [ankleKnife] }

/-- Returning boomerang one step from its owner, for the catch instance. -/
def returningBoomerang : Projectile :=
  { ptype := .boomerang, owner := 0, x := 230, direction := -1, speed := 5,
    damage := 1, flightPath := 1, phase := .returning, distanceTraveled := 350,
    height := .ankle, active := true }

/-- Player 0 with the boomerang equipped, mid-attack standing, full ammo. -/
def standReadyState : GameState :=
  { demoState with
      players := ({ createPlayerState 0 [.boomerang, .sword, .dagger] with
                      state := .attacking, activeWeapon := some .boomerang,
                      attackStance := .standing },
                  createPlayerState 1 demoWeapons) }

/-- Two ticks of inputs for the crouch-lock run: player 0 walks right,
player 1 holds crouch. -/
def crouchRunInputs : List (Input × Input) :=
  [(rightInput, pushInputB), (rightInput, pushInputB)]

/-- One driver step: tick with the neutral local input as host, keeping the
previous game state when the manager reports not ready. -/
def tickOnce (m : RollbackManager) (g : GameState) : RollbackManager × GameState :=
  let r := m.tick g createEmptyInput true
  (r.1, (r.2.1).getD g)

def tickSteps : Nat → RollbackManager × GameState → RollbackManager × GameState
  | 0, mg => mg
  | n + 1, mg => tickSteps n (tickOnce mg.1 mg.2)

/-- Manager after four ticks from reset: frame 3 was simulated on a
predicted remote input (frames 0 to 2 are seeded as confirmed). -/
def tick4Manager : RollbackManager :=
  (tickSteps 4 (RollbackManager.reset demoState, demoState)).1

/-- Manager with a flagged rollback target at frame 3, obtained by
confirming frame 3 with an input that differs from the prediction. -/
def flaggedManager : RollbackManager :=
  receivePair tick4Manager 3 rightInput

/-- Startup-readiness invariant of the manager: the local-input ring has
its construction size and holds an input for every frame of the delay
window starting at the current frame, so the delayed local input for the
current tick can never be missing. -/
def LocalReady (m : RollbackManager) : Prop :=
  m.localInputs.size = 128 ∧
  ∀ k, k < ROLLBACK_INPUT_DELAY →
    ((m.localInputs.get (m.currentFrame + k)).isSome = true)

/-- Path-1 boomerang one step short of its range turnaround. -/
def nearRangeBoomerang : Projectile :=
  { ptype := .boomerang, owner := 0, x := 640, direction := 1, speed := 5,
    damage := 1, flightPath := 1, phase := .outbound, distanceTraveled := 396,
    height := Height.none, active := true }

/-- Player 0 mid-attack with the throwing knife declared from a crouch. -/
def knifeReadyState : GameState :=
  { demoState with
      players := ({ createPlayerState 0 [.throwingKnife, .sword, .dagger] with
                      state := .attacking, activeWeapon := some .throwingKnife,
                      attackStance := .crouching },
                  createPlayerState 1 demoWeapons) }

-- ═══════════════ Theorems ═══════════════

/-- C1, counterexample.  In the exact Scenario A state (attacker standing,
facing right, Sword on its first active frame; stationary standing defender
at horizontal distance 40 facing the attacker) the Simulation Step does not
put the defender into hitstun with HP reduced by 1 and hitstop HITSTOP_HIT:
the standing shield facing the attacker blocks the high sword attack. -/
theorem scenarioA_claim_false :
    ¬ (((simulateFrame scenarioAState createEmptyInput createEmptyInput).players.2.state
          = PState.hitstun) ∧
       ((simulateFrame scenarioAState createEmptyInput createEmptyInput).players.2.hp
          = MAX_HP - 1) ∧
       ((simulateFrame scenarioAState createEmptyInput createEmptyInput).hitstop
          = HITSTOP_HIT)) := by
  decide

/-- C1, amended.  In Scenario A the Simulation Step puts the defender into
blockstun with the blockstun timer, leaves its HP unchanged, and sets
hitstop to the block value HITSTOP_BLOCK: the defender is standing and
facing the attacker, so its high shield blocks the high (standing-stance)
sword attack. -/
theorem scenarioA_blocked :
    ((simulateFrame scenarioAState createEmptyInput createEmptyInput).players.2.state
       = PState.blockstun) ∧
    ((simulateFrame scenarioAState createEmptyInput createEmptyInput).players.2.stateTimer
       = BLOCKSTUN_FRAMES) ∧
    ((simulateFrame scenarioAState createEmptyInput createEmptyInput).players.2.hp
       = MAX_HP) ∧
    ((simulateFrame scenarioAState createEmptyInput createEmptyInput).hitstop
       = HITSTOP_BLOCK) := by
  decide

/-- C8.  Divergence of the code from the claim (and from the README of the
repository, which states that directional input while crouching keeps the
current facing and that turning around requires standing up): a crouching
idle player holding crouch and pressing left has its facing flipped from 1
to -1 by one Simulation Step, because updatePlayer updates facing whenever
the player is idle and the horizontal delta is nonzero, with no stance
check. -/
theorem crouch_facing_flips :
    crouchTurnState.players.1.stance = Stance.crouching ∧
    crouchTurnState.players.1.state = PState.idle ∧
    crouchTurnState.players.1.facing = 1 ∧
    crouchTurnInput.crouch = true ∧
    ((simulateFrame crouchTurnState crouchTurnInput createEmptyInput).players.1.facing
       = -1) ∧
    ((simulateFrame crouchTurnState crouchTurnInput createEmptyInput).players.1.x
       = crouchTurnState.players.1.x) := by
  decide

/-- C5.  Determinism of the Simulation Step: it is a pure function of the
state and the two input snapshots, so two calls on the identical triple
produce identical result states.  In this embedding simulateFrame reads
nothing but its three arguments, mirroring the source, which uses no
randomness, clock reads or ambient mutable state. -/
theorem simulateFrame_deterministic (s : GameState) (a b : Input)
    (s1 s2 : GameState) (h1 : s1 = simulateFrame s a b)
    (h2 : s2 = simulateFrame s a b) : s1 = s2 := by
  rw [h1, h2]

/-- C5, witness. -/
theorem simulateFrame_deterministic_witness :
    simulateFrame demoState createEmptyInput createEmptyInput
      = simulateFrame demoState createEmptyInput createEmptyInput :=
  simulateFrame_deterministic demoState createEmptyInput createEmptyInput
    _ _ rfl rfl

/-- Helper: reading back the player just written by setPlayer. -/
theorem player_setPlayer_self (s : GameState) (i : Fin 2) (p : Player) :
    (s.setPlayer i p).player i = p := by
  by_cases h : i = 0 <;> simp [GameState.setPlayer, GameState.player, h]

/-- Helper: reading the other player after setPlayer. -/
theorem player_setPlayer_other (s : GameState) (i j : Fin 2) (p : Player)
    (h : j ≠ i) : (s.setPlayer i p).player j = s.player j := by
  fin_cases i <;> fin_cases j <;> simp_all [GameState.setPlayer, GameState.player]

/-- Helper: melee blocking branch of resolveHit. -/
theorem resolveHit_blocked (s : GameState) (ai di : Fin 2) (h : AttackHeight)
    (dmg : Int)
    (hb : (((s.player di).facing = 1 ∧ (s.player ai).x + PLAYER_WIDTH / 2 > (s.player di).x + PLAYER_WIDTH / 2) ∨
     ((s.player di).facing = -1 ∧ (s.player ai).x + PLAYER_WIDTH / 2 < (s.player di).x + PLAYER_WIDTH / 2)) ∧
    ((h = .high ∧ (s.player di).stance = .standing) ∨
     (h = .low ∧ ¬ (s.player di).stance = .standing))) :
    ((resolveHit s ai di h dmg).player di).state = .blockstun ∧
    ((resolveHit s ai di h dmg).player di).stateTimer = BLOCKSTUN_FRAMES ∧
    ((resolveHit s ai di h dmg).player di).hp = (s.player di).hp ∧
    (resolveHit s ai di h dmg).hitstop = HITSTOP_BLOCK := by
  unfold resolveHit
  rw [if_pos hb]
  by_cases hd : di = 0 <;>
    refine ⟨?_, ?_, ?_, ?_⟩ <;> simp [GameState.player, GameState.setPlayer, hd]

/-- Helper: melee connecting branch of resolveHit. -/
theorem resolveHit_connects (s : GameState) (ai di : Fin 2) (h : AttackHeight)
    (dmg : Int)
    (hb : ¬ ((((s.player di).facing = 1 ∧ (s.player ai).x + PLAYER_WIDTH / 2 > (s.player di).x + PLAYER_WIDTH / 2) ∨
     ((s.player di).facing = -1 ∧ (s.player ai).x + PLAYER_WIDTH / 2 < (s.player di).x + PLAYER_WIDTH / 2)) ∧
    ((h = .high ∧ (s.player di).stance = .standing) ∨
     (h = .low ∧ ¬ (s.player di).stance = .standing)))) :
    ((resolveHit s ai di h dmg).player di).state = .hitstun ∧
    ((resolveHit s ai di h dmg).player di).stateTimer = HITSTUN_FRAMES ∧
    ((resolveHit s ai di h dmg).player di).hp = max 0 ((s.player di).hp - dmg) ∧
    (resolveHit s ai di h dmg).hitstop = HITSTOP_HIT := by
  unfold resolveHit
  rw [if_neg hb]
  unfold applyDamage
  by_cases hd : di = 0 <;>
    refine ⟨?_, ?_, ?_, ?_⟩ <;> simp [GameState.player, GameState.setPlayer, hd]

/-- Helper: projectile blocking branch of projectileHitCheck. -/
theorem projHit_blocked (s : GameState) (proj : Projectile)
    (hact : proj.active = true) (hh : proj.height ≠ Height.none)
    (hstun : (s.player (1 - proj.owner)).state ≠ .hitstun)
    (hx1 : (s.player (1 - proj.owner)).x ≤ proj.x)
    (hx2 : proj.x ≤ (s.player (1 - proj.owner)).x + PLAYER_WIDTH)
    (hb : isFacingProjectile (s.player (1 - proj.owner)) proj ∧
      ((proj.height = .head ∧ (s.player (1 - proj.owner)).stance = .standing) ∨
       (proj.height = .ankle ∧ (s.player (1 - proj.owner)).stance = .crouching))) :
    ((projectileHitCheck s proj).1.player (1 - proj.owner)).state = .blockstun ∧
    ((projectileHitCheck s proj).1.player (1 - proj.owner)).stateTimer = BLOCKSTUN_FRAMES ∧
    ((projectileHitCheck s proj).1.player (1 - proj.owner)).hp = (s.player (1 - proj.owner)).hp ∧
    (projectileHitCheck s proj).1.hitstop = HITSTOP_BLOCK ∧
    (projectileHitCheck s proj).2.active = false := by
  unfold projectileHitCheck
  rw [if_neg (by simp [hact, hh])]
  rw [if_neg hstun, if_neg (by omega)]
  rcases hht : proj.height with _ | _ | _
  · have hstand : (s.player (1 - proj.owner)).stance = .standing := by
      rcases hb.2 with ⟨_, h2⟩ | ⟨h1, _⟩
      · exact h2
      · rw [hht] at h1; cases h1
    simp only [hht]
    rw [if_neg (by rw [hstand]; exact fun hc => Stance.noConfusion hc)]
    rw [if_pos hb.1]
    by_cases ho : (1 - proj.owner : Fin 2) = 0 <;>
      refine ⟨?_, ?_, ?_, ?_, ?_⟩ <;>
        simp [GameState.player, GameState.setPlayer, ho]
  · have hcr : (s.player (1 - proj.owner)).stance = .crouching := by
      rcases hb.2 with ⟨h1, _⟩ | ⟨_, h2⟩
      · rw [hht] at h1; cases h1
      · exact h2
    simp only [hht]
    rw [if_neg (by rw [hcr]; exact fun hc => Stance.noConfusion hc)]
    rw [if_pos hb.1]
    by_cases ho : (1 - proj.owner : Fin 2) = 0 <;>
      refine ⟨?_, ?_, ?_, ?_, ?_⟩ <;>
        simp [GameState.player, GameState.setPlayer, ho]
  · exact absurd hht hh

/-- Helper: projectile connecting branch of projectileHitCheck. -/
theorem projHit_connects (s : GameState) (proj : Projectile)
    (hact : proj.active = true) (hh : proj.height ≠ Height.none)
    (hstun : (s.player (1 - proj.owner)).state ≠ .hitstun)
    (hx1 : (s.player (1 - proj.owner)).x ≤ proj.x)
    (hx2 : proj.x ≤ (s.player (1 - proj.owner)).x + PLAYER_WIDTH)
    (hpass : ¬ (proj.height = .head ∧ (s.player (1 - proj.owner)).stance = .crouching))
    (hb : ¬ (isFacingProjectile (s.player (1 - proj.owner)) proj ∧
      ((proj.height = .head ∧ (s.player (1 - proj.owner)).stance = .standing) ∨
       (proj.height = .ankle ∧ (s.player (1 - proj.owner)).stance = .crouching)))) :
    ((projectileHitCheck s proj).1.player (1 - proj.owner)).state = .hitstun ∧
    ((projectileHitCheck s proj).1.player (1 - proj.owner)).stateTimer = HITSTUN_FRAMES ∧
    ((projectileHitCheck s proj).1.player (1 - proj.owner)).hp =
      max 0 ((s.player (1 - proj.owner)).hp - proj.damage) ∧
    (projectileHitCheck s proj).1.hitstop = HITSTOP_HIT ∧
    (projectileHitCheck s proj).2.active = false := by
  unfold projectileHitCheck
  rw [if_neg (by simp [hact, hh])]
  rw [if_neg hstun, if_neg (by omega)]
  rcases hht : proj.height with _ | _ | _
  · have hstand : (s.player (1 - proj.owner)).stance = .standing := by
      rcases hst : (s.player (1 - proj.owner)).stance
      · rfl
      · exact absurd ⟨hht, hst⟩ hpass
    have hfac : ¬ isFacingProjectile (s.player (1 - proj.owner)) proj := by
      intro hf
      exact hb ⟨hf, Or.inl ⟨hht, hstand⟩⟩
    simp only [hht]
    rw [if_neg (by rw [hstand]; exact fun hc => Stance.noConfusion hc)]
    rw [if_neg hfac]
    unfold applyDamage
    by_cases ho : (1 - proj.owner : Fin 2) = 0 <;>
      refine ⟨?_, ?_, ?_, ?_, ?_⟩ <;>
        simp [GameState.player, GameState.setPlayer, ho]
  · simp only [hht]
    rcases hst : (s.player (1 - proj.owner)).stance
    · rw [if_pos rfl]
      unfold applyDamage
      by_cases ho : (1 - proj.owner : Fin 2) = 0 <;>
        refine ⟨?_, ?_, ?_, ?_, ?_⟩ <;>
          simp [GameState.player, GameState.setPlayer, ho, hst]
    · have hfac : ¬ isFacingProjectile (s.player (1 - proj.owner)) proj := by
        intro hf
        exact hb ⟨hf, Or.inr ⟨hht, hst⟩⟩
      rw [if_neg (fun hc => Stance.noConfusion hc)]
      rw [if_neg hfac]
      unfold applyDamage
      by_cases ho : (1 - proj.owner : Fin 2) = 0 <;>
        refine ⟨?_, ?_, ?_, ?_, ?_⟩ <;>
          simp [GameState.player, GameState.setPlayer, ho, hst]
  · exact absurd hht hh

/-- C3.  Blocking rule, shared by melee and projectile resolution.  A melee
hit resolved by resolveHit is blocked if and only if the defender faces the
attacker (attack origin) and the defender shield height matches the attack
height (standing shield is high and blocks high attacks, crouching shield
is low and blocks low attacks); a projectile hit resolved by
projectileHitCheck is blocked if and only if the defender faces against the
projectile travel direction and the shield height matches the projectile
height (standing blocks head level, crouching blocks ankle level).  A block
puts the defender in blockstun with the shorter hitstop HITSTOP_BLOCK and
no damage; otherwise — including every attack arriving from the defender
back, where the facing condition fails — the hit connects: damage is
applied (hp clamped at 0), the defender enters hitstun, and the longer
hitstop HITSTOP_HIT is set. -/
theorem blocking_rule :
    (∀ (s : GameState) (ai di : Fin 2) (h : AttackHeight) (dmg : Int),
      ((((s.player di).facing = 1 ∧ (s.player ai).x + PLAYER_WIDTH / 2 > (s.player di).x + PLAYER_WIDTH / 2) ∨
        ((s.player di).facing = -1 ∧ (s.player ai).x + PLAYER_WIDTH / 2 < (s.player di).x + PLAYER_WIDTH / 2)) ∧
       ((h = .high ∧ (s.player di).stance = .standing) ∨
        (h = .low ∧ ¬ (s.player di).stance = .standing))) →
      ((resolveHit s ai di h dmg).player di).state = .blockstun ∧
      ((resolveHit s ai di h dmg).player di).stateTimer = BLOCKSTUN_FRAMES ∧
      ((resolveHit s ai di h dmg).player di).hp = (s.player di).hp ∧
      (resolveHit s ai di h dmg).hitstop = HITSTOP_BLOCK) ∧
    (∀ (s : GameState) (ai di : Fin 2) (h : AttackHeight) (dmg : Int),
      ¬ ((((s.player di).facing = 1 ∧ (s.player ai).x + PLAYER_WIDTH / 2 > (s.player di).x + PLAYER_WIDTH / 2) ∨
         ((s.player di).facing = -1 ∧ (s.player ai).x + PLAYER_WIDTH / 2 < (s.player di).x + PLAYER_WIDTH / 2)) ∧
        ((h = .high ∧ (s.player di).stance = .standing) ∨
         (h = .low ∧ ¬ (s.player di).stance = .standing))) →
      ((resolveHit s ai di h dmg).player di).state = .hitstun ∧
      ((resolveHit s ai di h dmg).player di).stateTimer = HITSTUN_FRAMES ∧
      ((resolveHit s ai di h dmg).player di).hp = max 0 ((s.player di).hp - dmg) ∧
      (resolveHit s ai di h dmg).hitstop = HITSTOP_HIT) ∧
    (∀ (s : GameState) (proj : Projectile),
      proj.active = true → proj.height ≠ Height.none →
      (s.player (1 - proj.owner)).state ≠ .hitstun →
      (s.player (1 - proj.owner)).x ≤ proj.x →
      proj.x ≤ (s.player (1 - proj.owner)).x + PLAYER_WIDTH →
      (isFacingProjectile (s.player (1 - proj.owner)) proj ∧
       ((proj.height = .head ∧ (s.player (1 - proj.owner)).stance = .standing) ∨
        (proj.height = .ankle ∧ (s.player (1 - proj.owner)).stance = .crouching))) →
      ((projectileHitCheck s proj).1.player (1 - proj.owner)).state = .blockstun ∧
      ((projectileHitCheck s proj).1.player (1 - proj.owner)).stateTimer = BLOCKSTUN_FRAMES ∧
      ((projectileHitCheck s proj).1.player (1 - proj.owner)).hp = (s.player (1 - proj.owner)).hp ∧
      (projectileHitCheck s proj).1.hitstop = HITSTOP_BLOCK ∧
      (projectileHitCheck s proj).2.active = false) ∧
    (∀ (s : GameState) (proj : Projectile),
      proj.active = true → proj.height ≠ Height.none →
      (s.player (1 - proj.owner)).state ≠ .hitstun →
      (s.player (1 - proj.owner)).x ≤ proj.x →
      proj.x ≤ (s.player (1 - proj.owner)).x + PLAYER_WIDTH →
      ¬ (proj.height = .head ∧ (s.player (1 - proj.owner)).stance = .crouching) →
      ¬ (isFacingProjectile (s.player (1 - proj.owner)) proj ∧
        ((proj.height = .head ∧ (s.player (1 - proj.owner)).stance = .standing) ∨
         (proj.height = .ankle ∧ (s.player (1 - proj.owner)).stance = .crouching))) →
      ((projectileHitCheck s proj).1.player (1 - proj.owner)).state = .hitstun ∧
      ((projectileHitCheck s proj).1.player (1 - proj.owner)).stateTimer = HITSTUN_FRAMES ∧
      ((projectileHitCheck s proj).1.player (1 - proj.owner)).hp =
        max 0 ((s.player (1 - proj.owner)).hp - proj.damage) ∧
      (projectileHitCheck s proj).1.hitstop = HITSTOP_HIT ∧
      (projectileHitCheck s proj).2.active = false) :=
  ⟨fun s ai di h dmg hb => resolveHit_blocked s ai di h dmg hb,
   fun s ai di h dmg hb => resolveHit_connects s ai di h dmg hb,
   fun s proj h1 h2 h3 h4 h5 hb => projHit_blocked s proj h1 h2 h3 h4 h5 hb,
   fun s proj h1 h2 h3 h4 h5 h6 hb =>
     projHit_connects s proj h1 h2 h3 h4 h5 h6 hb⟩

/-- C3, witness: the standing defender of Scenario A facing the attacker
blocks the high sword hit, and the ankle knife connects on the standing
idle defender of knifeFacingState. -/
theorem blocking_rule_witness :
    (((resolveHit scenarioAState 0 1 .high 1).player 1).state = .blockstun ∧
     ((resolveHit scenarioAState 0 1 .high 1).player 1).stateTimer = BLOCKSTUN_FRAMES ∧
     ((resolveHit scenarioAState 0 1 .high 1).player 1).hp = (scenarioAState.player 1).hp ∧
     (resolveHit scenarioAState 0 1 .high 1).hitstop = HITSTOP_BLOCK) ∧
    (((projectileHitCheck knifeFacingState ankleKnife).1.player (1 - ankleKnife.owner)).state = .hitstun ∧
     ((projectileHitCheck knifeFacingState ankleKnife).1.player (1 - ankleKnife.owner)).stateTimer = HITSTUN_FRAMES ∧
     ((projectileHitCheck knifeFacingState ankleKnife).1.player (1 - ankleKnife.owner)).hp =
       max 0 ((knifeFacingState.player (1 - ankleKnife.owner)).hp - ankleKnife.damage) ∧
     (projectileHitCheck knifeFacingState ankleKnife).1.hitstop = HITSTOP_HIT ∧
     (projectileHitCheck knifeFacingState ankleKnife).2.active = false) :=
  ⟨blocking_rule.1 scenarioAState 0 1 .high 1 (by decide),
   blocking_rule.2.2.2 knifeFacingState ankleKnife (by decide) (by decide)
     (by decide) (by decide) (by decide) (by decide) (by decide)⟩

/-- Helper: storing a frame makes it readable back. -/
theorem ih_get_set_self (h : InputHistory) (f : Nat) (v : Input) :
    (h.set f v).get f = some v := by
  simp [InputHistory.set, InputHistory.get]

/-- Helper: a pair whose tick already holds a confirmed value is ignored
entirely. -/
theorem receivePair_skip (m : RollbackManager) (f : Int) (inp : Input)
    (hf : 0 ≤ f) (hs : (m.remoteInputs.get f.toNat).isSome = true) :
    receivePair m f inp = m := by
  unfold receivePair
  rw [if_neg (by omega), if_pos hs]

/-- Helper: a pair for an unconfirmed tick is stored and raises the
watermark to the maximum of its old value and the frame. -/
theorem receivePair_store (m : RollbackManager) (f : Int) (inp : Input)
    (hf : 0 ≤ f) (hs : m.remoteInputs.get f.toNat = Option.none) :
    (receivePair m f inp).remoteInputs.get f.toNat = some inp ∧
    (receivePair m f inp).lastConfirmedFrame = max m.lastConfirmedFrame f := by
  unfold receivePair
  rw [if_neg (by omega), if_neg (by simp [hs])]
  constructor
  · dsimp only
    repeat' split
    all_goals simp [ih_get_set_self]
  · dsimp only
    repeat' split
    all_goals (dsimp only; omega)

/-- Helper: a detected misprediction records the earliest flagged tick: the
new rollback target is the minimum of the old target (when present) and the
newly flagged frame. -/
theorem receivePair_flag (m : RollbackManager) (f : Int) (inp p : Input)
    (hf : 0 ≤ f) (hs : m.remoteInputs.get f.toNat = Option.none)
    (hlt : f.toNat < m.currentFrame)
    (hp : m.predictedRemote f.toNat = some p)
    (hne : inputsEqual p inp = false) :
    (receivePair m f inp).rollbackTarget =
      some (min (m.rollbackTarget.getD f.toNat) f.toNat) := by
  unfold receivePair
  rw [if_neg (by omega), if_neg (by simp [hs])]
  dsimp only
  split
  all_goals
    dsimp only
    rw [hp]
    dsimp only
    rw [if_pos hne]
    cases ht : m.rollbackTarget with
    | none => simp
    | some t =>
      dsimp only [Option.getD]
      split
      · simp only [Option.some.injEq]
        omega
      · simp only [Option.some.injEq]
        omega

/-- Helper: processing one pair never raises an existing rollback target. -/
theorem receivePair_target_mono (m : RollbackManager) (f : Int) (inp : Input)
    (t : Nat) (ht : m.rollbackTarget = some t) :
    ∃ t2, t2 ≤ t ∧ (receivePair m f inp).rollbackTarget = some t2 := by
  by_cases h0 : f < 0
  · unfold receivePair
    rw [if_pos h0]
    exact ⟨t, le_rfl, ht⟩
  · by_cases hsome : (m.remoteInputs.get f.toNat).isSome = true
    · unfold receivePair
      rw [if_neg h0, if_pos hsome]
      exact ⟨t, le_rfl, ht⟩
    · unfold receivePair
      rw [if_neg h0, if_neg hsome]
      dsimp only
      split
      all_goals try dsimp only
      all_goals split
      all_goals try dsimp only
      all_goals try exact ⟨t, le_rfl, ht⟩
      all_goals cases hp : m.predictedRemote f.toNat
      all_goals try dsimp only
      all_goals try exact ⟨t, le_rfl, ht⟩
      all_goals split
      all_goals try exact ⟨t, le_rfl, ht⟩
      all_goals rw [ht]
      all_goals try dsimp only
      all_goals split
      all_goals first
        | exact ⟨t, le_rfl, rfl⟩
        | (rename_i hflt; exact ⟨f.toNat, Nat.le_of_lt hflt, rfl⟩)

/-- Helper: the whole-message loop never raises an existing rollback
target. -/
theorem receiveLoop_target_mono (inputs : List Input) :
    ∀ (m : RollbackManager) (frame : Int) (t : Nat),
    m.rollbackTarget = some t →
    ∃ t2, t2 ≤ t ∧ (receiveLoop m frame inputs).rollbackTarget = some t2 := by
  induction inputs with
  | nil => exact fun m frame t ht => ⟨t, le_rfl, ht⟩
  | cons inp rest ih =>
    intro m frame t ht
    obtain ⟨t1, h1, ht1⟩ := receivePair_target_mono m frame inp t ht
    obtain ⟨t2, h2, ht2⟩ := ih (receivePair m frame inp) (frame - 1) t1 ht1
    exact ⟨t2, le_trans h2 h1, ht2⟩

/-- C4.  Ingestion of a redundant-input message, pair by pair: a pair whose
tick already holds a confirmed value is ignored (first-writer-wins, the
stored value and the whole manager state are unchanged); a pair for an
unconfirmed tick is stored and raises the confirmed-tick watermark to the
maximum of old watermark and frame; when a stored pair reveals a
misprediction of an already-simulated tick, the recorded rollback target
becomes the minimum of the previously recorded target and the flagged
tick — so over any sequence of flagged ticks the earliest one is kept, and
a whole message can never raise an existing target. -/
theorem receiveInputs_ingestion_rules :
    (∀ (m : RollbackManager) (f : Int) (inp : Input),
      0 ≤ f → (m.remoteInputs.get f.toNat).isSome = true →
      receivePair m f inp = m) ∧
    (∀ (m : RollbackManager) (f : Int) (inp : Input),
      0 ≤ f → m.remoteInputs.get f.toNat = Option.none →
      (receivePair m f inp).remoteInputs.get f.toNat = some inp ∧
      (receivePair m f inp).lastConfirmedFrame = max m.lastConfirmedFrame f) ∧
    (∀ (m : RollbackManager) (f : Int) (inp p : Input),
      0 ≤ f → m.remoteInputs.get f.toNat = Option.none →
      f.toNat < m.currentFrame →
      m.predictedRemote f.toNat = some p →
      inputsEqual p inp = false →
      (receivePair m f inp).rollbackTarget =
        some (min (m.rollbackTarget.getD f.toNat) f.toNat)) ∧
    (∀ (m : RollbackManager) (msg : InputMsg) (t : Nat),
      m.rollbackTarget = some t →
      ∃ t2, t2 ≤ t ∧ (m.receiveInputs msg).rollbackTarget = some t2) :=
  ⟨receivePair_skip,
   receivePair_store,
   fun m f inp p hf hs hlt hp hne => receivePair_flag m f inp p hf hs hlt hp hne,
   fun m msg t ht => receiveLoop_target_mono msg.inputs m msg.startFrame t ht⟩

/-- C4, witness: on the manager four ticks after reset, re-sending the
seeded frame 0 is ignored, confirming the unconfirmed frame 5 stores it and
raises the watermark, confirming the mispredicted frame 3 records it as the
rollback target, and a further message never raises that target. -/
theorem receiveInputs_ingestion_rules_witness :
    (receivePair tick4Manager 0 rightInput = tick4Manager) ∧
    ((receivePair tick4Manager 5 rightInput).remoteInputs.get (5 : Int).toNat
       = some rightInput ∧
     (receivePair tick4Manager 5 rightInput).lastConfirmedFrame
       = max tick4Manager.lastConfirmedFrame 5) ∧
    ((receivePair tick4Manager 3 rightInput).rollbackTarget
       = some (min (tick4Manager.rollbackTarget.getD (3 : Int).toNat) (3 : Int).toNat)) ∧
    (∃ t2, t2 ≤ 3 ∧
      (flaggedManager.receiveInputs { startFrame := 9, inputs := [] }).rollbackTarget
        = some t2) :=
  ⟨receiveInputs_ingestion_rules.1 tick4Manager 0 rightInput (by decide) (by decide),
   receiveInputs_ingestion_rules.2.1 tick4Manager 5 rightInput (by decide) (by decide),
   receiveInputs_ingestion_rules.2.2.1 tick4Manager 3 rightInput createEmptyInput
     (by decide) (by decide) (by decide) (by decide) (by decide),
   receiveInputs_ingestion_rules.2.2.2 flaggedManager
     { startFrame := 9, inputs := [] } 3 (by decide)⟩

/-- Helper: storing a frame in a different ring slot leaves a lookup
unchanged. -/
theorem ih_get_set_ne (h : InputHistory) (f g : Nat) (v : Input)
    (hm : f % h.size ≠ g % h.size) : (h.set g v).get f = h.get f := by
  simp [InputHistory.set, InputHistory.get, hm]

/-- Helper: the resimulation loop touches neither the local-input history
nor the current frame. -/
theorem resimLoop_frames (host : Bool) :
    ∀ (count : Nat) (m : RollbackManager) (state : GameState) (f : Nat),
    (resimLoop m state host f count).1.localInputs = m.localInputs ∧
    (resimLoop m state host f count).1.currentFrame = m.currentFrame := by
  intro count
  induction count with
  | zero => intro m state f; exact ⟨rfl, rfl⟩
  | succ n ih =>
    intro m state f
    rw [resimLoop]
    cases hc : m.remoteInputs.get f <;>
      dsimp only <;>
      exact (ih _ _ _)

/-- Helper: performRollback touches neither the local-input history nor
the current frame. -/
theorem performRollback_frames (m : RollbackManager) (g : GameState)
    (host : Bool) :
    (m.performRollback g host).1.localInputs = m.localInputs ∧
    (m.performRollback g host).1.currentFrame = m.currentFrame := by
  unfold RollbackManager.performRollback
  cases ht : m.rollbackTarget with
  | none => exact ⟨rfl, rfl⟩
  | some t0 =>
    dsimp only
    split
    · exact ⟨rfl, rfl⟩
    · exact resimLoop_frames host _ _ _ _

/-- Helper: under the readiness invariant one tick call returns a new
state, advances the current frame by one, and preserves the invariant. -/
theorem tick_ready_step (m : RollbackManager) (g : GameState) (inp : Input)
    (host : Bool) (h : LocalReady m) :
    ((m.tick g inp host).2.1.isSome = true) ∧
    ((m.tick g inp host).1.currentFrame = m.currentFrame + 1) ∧
    LocalReady (m.tick g inp host).1 := by
  obtain ⟨hsz, hrdy⟩ := h
  have hmodne : m.currentFrame % m.localInputs.size ≠
      (m.currentFrame + ROLLBACK_INPUT_DELAY) % m.localInputs.size := by
    rw [hsz]
    show m.currentFrame % 128 ≠ (m.currentFrame + 3) % 128
    omega
  have hget : (m.localInputs.set (m.currentFrame + ROLLBACK_INPUT_DELAY) inp).get
      m.currentFrame = m.localInputs.get m.currentFrame :=
    ih_get_set_ne _ _ _ _ hmodne
  have h0 : (m.localInputs.get m.currentFrame).isSome = true := by
    have := hrdy 0 (by show (0 : Nat) < 3; omega)
    simpa using this
  obtain ⟨v, hv⟩ := Option.isSome_iff_exists.mp (hget ▸ h0 :
    ((m.localInputs.set (m.currentFrame + ROLLBACK_INPUT_DELAY) inp).get
      m.currentFrame).isSome = true)
  have hwin : ∀ k, k < ROLLBACK_INPUT_DELAY →
      (((m.localInputs.set (m.currentFrame + ROLLBACK_INPUT_DELAY) inp).get
        (m.currentFrame + 1 + k)).isSome = true) := by
    intro k hk
    have hk3 : k < 3 := hk
    by_cases hke : m.currentFrame + 1 + k = m.currentFrame + ROLLBACK_INPUT_DELAY
    · rw [hke, ih_get_set_self]
      rfl
    · have hke3 : m.currentFrame + 1 + k ≠ m.currentFrame + 3 := hke
      rw [ih_get_set_ne]
      · have he : m.currentFrame + 1 + k = m.currentFrame + (k + 1) := by omega
        rw [he]
        exact hrdy (k + 1) (by show k + 1 < 3; omega)
      · rw [hsz]
        show (m.currentFrame + 1 + k) % 128 ≠ (m.currentFrame + 3) % 128
        omega
  unfold RollbackManager.tick
  dsimp only
  rw [hv]
  dsimp only
  cases hrt : m.rollbackTarget <;> dsimp only
  · -- no pending rollback
    cases hc2 : m.remoteInputs.get m.currentFrame <;> dsimp only <;>
      exact ⟨rfl, rfl, hsz, hwin⟩
  · -- pending rollback
    rename_i t0
    obtain ⟨hl, hcf⟩ := performRollback_frames
      { localInputs := m.localInputs.set (m.currentFrame + ROLLBACK_INPUT_DELAY) inp,
        remoteInputs := m.remoteInputs, states := m.states,
        predictedRemote := m.predictedRemote, currentFrame := m.currentFrame,
        lastConfirmedFrame := m.lastConfirmedFrame, rollbackTarget := some t0,
        statsRollbacks := m.statsRollbacks, statsMaxDepth := m.statsMaxDepth }
      g host
    repeat' split
    all_goals try dsimp only
    all_goals
      refine ⟨rfl, ?_, ?_, ?_⟩
      · try dsimp only
        rw [hcf]
        try rfl
      · try dsimp only
        rw [hl]
        exact hsz
      · try dsimp only
        rw [hl, hcf]
        exact hwin

/-- Helper: receivePair touches neither the local-input history nor the
current frame. -/
theorem receivePair_frames (m : RollbackManager) (f : Int) (inp : Input) :
    (receivePair m f inp).localInputs = m.localInputs ∧
    (receivePair m f inp).currentFrame = m.currentFrame := by
  unfold receivePair
  dsimp only
  repeat' split
  all_goals exact ⟨rfl, rfl⟩

/-- Helper: the whole-message ingestion loop touches neither the
local-input history nor the current frame. -/
theorem receiveLoop_frames (inputs : List Input) :
    ∀ (m : RollbackManager) (frame : Int),
    (receiveLoop m frame inputs).localInputs = m.localInputs ∧
    (receiveLoop m frame inputs).currentFrame = m.currentFrame := by
  induction inputs with
  | nil => exact fun m frame => ⟨rfl, rfl⟩
  | cons inp rest ih =>
    intro m frame
    have h1 := receivePair_frames m frame inp
    have h2 := ih (receivePair m frame inp) (frame - 1)
    exact ⟨h2.1.trans h1.1, h2.2.trans h1.2⟩

/-- Helper: reset establishes the readiness invariant by seeding the first
ROLLBACK_INPUT_DELAY local inputs. -/
theorem reset_localReady (gs : GameState) :
    LocalReady (RollbackManager.reset gs) := by
  constructor
  · rfl
  · intro k hk
    have hloc : (RollbackManager.reset gs).localInputs =
        seedInputs (InputHistory.empty 128) ROLLBACK_INPUT_DELAY := rfl
    have hcf : (RollbackManager.reset gs).currentFrame = 0 := rfl
    rw [hloc, hcf]
    have hk3 : k < 3 := hk
    interval_cases k <;> decide

/-- Helper: every reachable manager state satisfies the readiness
invariant. -/
theorem rmReached_localReady (m : RollbackManager) (h : RMReached m) :
    LocalReady m := by
  induction h with
  | init gs => exact reset_localReady gs
  | stepTick m gs inp host hm ih => exact (tick_ready_step m gs inp host ih).2.2
  | stepRecv m msg hm ih =>
    obtain ⟨h1, h2⟩ := receiveLoop_frames msg.inputs m msg.startFrame
    constructor
    · rw [show (m.receiveInputs msg).localInputs = m.localInputs from h1]
      exact ih.1
    · intro k hk
      rw [show (m.receiveInputs msg).localInputs = m.localInputs from h1,
          show (m.receiveInputs msg).currentFrame = m.currentFrame from h2]
      exact ih.2 k hk

/-- C2.  After reset, no tick call ever reports not ready: reset pre-seeds
the first ROLLBACK_INPUT_DELAY local inputs and every tick stores the local
input for frame currentFrame + ROLLBACK_INPUT_DELAY before looking up the
current frame, so for every manager state reachable by any interleaving of
tick and receiveInputs calls, tick returns a new simulation state and
advances the current tick by exactly one.  In particular every call with
index at least ROLLBACK_INPUT_DELAY returns a state, and a null return is
impossible even during the Startup phase. -/
theorem tick_never_blocks (m : RollbackManager) (h : RMReached m)
    (gs : GameState) (inp : Input) (host : Bool) :
    (m.tick gs inp host).2.1.isSome = true ∧
    (m.tick gs inp host).1.currentFrame = m.currentFrame + 1 :=
  ⟨(tick_ready_step m gs inp host (rmReached_localReady m h)).1,
   (tick_ready_step m gs inp host (rmReached_localReady m h)).2.1⟩

/-- C2, witness. -/
theorem tick_never_blocks_witness :
    ((RollbackManager.reset demoState).tick demoState createEmptyInput true).2.1.isSome = true ∧
    ((RollbackManager.reset demoState).tick demoState createEmptyInput true).1.currentFrame
      = (RollbackManager.reset demoState).currentFrame + 1 :=
  tick_never_blocks (RollbackManager.reset demoState)
    (RMReached.init demoState) demoState createEmptyInput true

/-- Helper: setPlayer leaves the projectile list unchanged. -/
theorem projectiles_setPlayer (s : GameState) (i : Fin 2) (p : Player) :
    (s.setPlayer i p).projectiles = s.projectiles := by
  by_cases h : i = 0 <;> simp [GameState.setPlayer, h]

/-- Helper: replacing the projectile list leaves the players unchanged. -/
theorem player_withProjectiles (s : GameState) (ps : List Projectile) (i : Fin 2) :
    GameState.player { s with projectiles := ps } i = s.player i := by
  simp [GameState.player]

/-- Helper: a crouch-stance boomerang throw appends a projectile on path 1
or 2 by parity of the crouch-throw counter, with the outbound height of the
path, and increments the counter. -/
theorem spawn_crouch_path (s : GameState) (i : Fin 2)
    (hw : (s.player i).activeWeapon = some WeaponId.boomerang)
    (ha : 0 < (s.player i).boomerangsHeld)
    (hst : (s.player i).attackStance = .crouching) :
    ((spawnProjectile s i).projectiles.getLast?).map
        (fun p => (p.flightPath, p.phase, p.height)) =
      some ((if (s.player i).crouchThrowCount % 2 = 0 then 1 else 2), Phase.outbound,
        boomerangOutboundHeight (if (s.player i).crouchThrowCount % 2 = 0 then 1 else 2)) ∧
    ((spawnProjectile s i).player i).crouchThrowCount
      = (s.player i).crouchThrowCount + 1 := by
  unfold spawnProjectile
  dsimp only
  rw [hw]
  dsimp only
  rw [if_pos (show (WEAPON_DEFS WeaponId.boomerang).subtype = some .boomerang from rfl)]
  rw [if_neg (by omega), if_pos hst, if_pos hst]
  constructor
  · dsimp only
    rw [List.getLast?_concat]
    rfl
  · rw [player_withProjectiles, player_setPlayer_self]

/-- Helper: a stand-stance boomerang throw appends a projectile on path 3
or 4 by parity of the stand-throw counter, with the outbound height of the
path, and increments the counter. -/
theorem spawn_stand_path (s : GameState) (i : Fin 2)
    (hw : (s.player i).activeWeapon = some WeaponId.boomerang)
    (ha : 0 < (s.player i).boomerangsHeld)
    (hst : (s.player i).attackStance = .standing) :
    ((spawnProjectile s i).projectiles.getLast?).map
        (fun p => (p.flightPath, p.phase, p.height)) =
      some ((if (s.player i).standThrowCount % 2 = 0 then 3 else 4), Phase.outbound,
        boomerangOutboundHeight (if (s.player i).standThrowCount % 2 = 0 then 3 else 4)) ∧
    ((spawnProjectile s i).player i).standThrowCount
      = (s.player i).standThrowCount + 1 := by
  unfold spawnProjectile
  dsimp only
  rw [hw]
  dsimp only
  rw [if_pos (show (WEAPON_DEFS WeaponId.boomerang).subtype = some .boomerang from rfl)]
  rw [if_neg (by omega)]
  rw [if_neg (show ¬ (s.player i).attackStance = Stance.crouching from by
        rw [hst]; exact fun hc => Stance.noConfusion hc),
      if_neg (show ¬ (s.player i).attackStance = Stance.crouching from by
        rw [hst]; exact fun hc => Stance.noConfusion hc)]
  constructor
  · dsimp only
    rw [List.getLast?_concat]
    rfl
  · rw [player_withProjectiles, player_setPlayer_self]

/-- Helper: an outbound boomerang reaching its range flips to the return
leg and takes the return height of its path. -/
theorem boomerang_flip_at_range (s : GameState) (proj : Projectile)
    (hph : proj.phase = .outbound)
    (hd : proj.distanceTraveled + proj.speed ≥ BOOMERANG_RANGE) :
    (updateBoomerang s proj).2.phase = .returning ∧
    (updateBoomerang s proj).2.height = boomerangReturnHeight proj.flightPath := by
  unfold updateBoomerang
  dsimp only
  rw [hph]
  dsimp only
  rw [if_pos hd]
  exact ⟨rfl, rfl⟩

/-- Helper: an outbound boomerang short of its range keeps its phase and
hit-detection height. -/
theorem boomerang_keep_outbound (s : GameState) (proj : Projectile)
    (hph : proj.phase = .outbound)
    (hd : ¬ (proj.distanceTraveled + proj.speed ≥ BOOMERANG_RANGE)) :
    (updateBoomerang s proj).2.phase = .outbound ∧
    (updateBoomerang s proj).2.height = proj.height := by
  unfold updateBoomerang
  dsimp only
  rw [hph]
  dsimp only
  rw [if_neg hd]
  exact ⟨rfl, rfl⟩

/-- C7.  Boomerang flight-path policy: a crouch-stance throw selects path 1
on an even crouch-throw count and path 2 on an odd one, a stand-stance
throw selects path 3 on an even stand-throw count and path 4 on an odd one,
and each throw increments its counter, so successive same-stance throws
alternate; the spawned projectile carries the outbound hit-detection height
of its path — none for paths 1 and 4 (the arcing, non-colliding segment),
ankle for path 2, head for path 3; an outbound boomerang keeps that height
until its travelled distance reaches the range, at which point it switches
to the return leg and takes the return height of its path: 1 to ankle, 2 to
head, 3 to ankle, 4 to head. -/
theorem boomerang_flight_paths :
    (∀ (s : GameState) (i : Fin 2),
      (s.player i).activeWeapon = some WeaponId.boomerang →
      0 < (s.player i).boomerangsHeld →
      (s.player i).attackStance = .crouching →
      ((spawnProjectile s i).projectiles.getLast?).map
          (fun p => (p.flightPath, p.phase, p.height)) =
        some ((if (s.player i).crouchThrowCount % 2 = 0 then 1 else 2), Phase.outbound,
          boomerangOutboundHeight (if (s.player i).crouchThrowCount % 2 = 0 then 1 else 2)) ∧
      ((spawnProjectile s i).player i).crouchThrowCount
        = (s.player i).crouchThrowCount + 1) ∧
    (∀ (s : GameState) (i : Fin 2),
      (s.player i).activeWeapon = some WeaponId.boomerang →
      0 < (s.player i).boomerangsHeld →
      (s.player i).attackStance = .standing →
      ((spawnProjectile s i).projectiles.getLast?).map
          (fun p => (p.flightPath, p.phase, p.height)) =
        some ((if (s.player i).standThrowCount % 2 = 0 then 3 else 4), Phase.outbound,
          boomerangOutboundHeight (if (s.player i).standThrowCount % 2 = 0 then 3 else 4)) ∧
      ((spawnProjectile s i).player i).standThrowCount
        = (s.player i).standThrowCount + 1) ∧
    (boomerangOutboundHeight 1 = Height.none ∧ boomerangOutboundHeight 2 = .ankle ∧
     boomerangOutboundHeight 3 = .head ∧ boomerangOutboundHeight 4 = Height.none) ∧
    (boomerangReturnHeight 1 = .ankle ∧ boomerangReturnHeight 2 = .head ∧
     boomerangReturnHeight 3 = .ankle ∧ boomerangReturnHeight 4 = .head) ∧
    (∀ (s : GameState) (proj : Projectile),
      proj.phase = .outbound →
      proj.distanceTraveled + proj.speed ≥ BOOMERANG_RANGE →
      (updateBoomerang s proj).2.phase = .returning ∧
      (updateBoomerang s proj).2.height = boomerangReturnHeight proj.flightPath) ∧
    (∀ (s : GameState) (proj : Projectile),
      proj.phase = .outbound →
      ¬ (proj.distanceTraveled + proj.speed ≥ BOOMERANG_RANGE) →
      (updateBoomerang s proj).2.phase = .outbound ∧
      (updateBoomerang s proj).2.height = proj.height) :=
  ⟨spawn_crouch_path, spawn_stand_path,
   ⟨by decide, by decide, by decide, by decide⟩,
   ⟨by decide, by decide, by decide, by decide⟩,
   boomerang_flip_at_range, boomerang_keep_outbound⟩

/-- C7, witness: the first crouch throw of throwReadyState uses path 1, the
first stand throw of standReadyState uses path 3, and the near-range path-1
boomerang flips to its ankle-height return leg. -/
theorem boomerang_flight_paths_witness :
    (((spawnProjectile throwReadyState 0).projectiles.getLast?).map
        (fun p => (p.flightPath, p.phase, p.height)) =
      some ((if (throwReadyState.player 0).crouchThrowCount % 2 = 0 then 1 else 2),
        Phase.outbound,
        boomerangOutboundHeight
          (if (throwReadyState.player 0).crouchThrowCount % 2 = 0 then 1 else 2)) ∧
     ((spawnProjectile throwReadyState 0).player 0).crouchThrowCount
       = (throwReadyState.player 0).crouchThrowCount + 1) ∧
    (((spawnProjectile standReadyState 0).projectiles.getLast?).map
        (fun p => (p.flightPath, p.phase, p.height)) =
      some ((if (standReadyState.player 0).standThrowCount % 2 = 0 then 3 else 4),
        Phase.outbound,
        boomerangOutboundHeight
          (if (standReadyState.player 0).standThrowCount % 2 = 0 then 3 else 4)) ∧
     ((spawnProjectile standReadyState 0).player 0).standThrowCount
       = (standReadyState.player 0).standThrowCount + 1) ∧
    ((updateBoomerang demoState nearRangeBoomerang).2.phase = .returning ∧
     (updateBoomerang demoState nearRangeBoomerang).2.height
       = boomerangReturnHeight nearRangeBoomerang.flightPath) :=
  ⟨boomerang_flight_paths.1 throwReadyState 0 (by decide) (by decide) (by decide),
   boomerang_flight_paths.2.1 standReadyState 0 (by decide) (by decide) (by decide),
   boomerang_flight_paths.2.2.2.2.1 demoState nearRangeBoomerang
     (by decide) (by decide)⟩

/-- C10, counterexample.  An active ankle-height knife horizontally
overlapping a standing defender applies no damage when the defender is
already in hitstun: checkProjectileHits skips hitstunned players, so the
claim that an ankle-height knife always applies damage to a standing
defender on horizontal overlap is false as stated. -/
theorem ankle_knife_hitstun_passes :
    knifeHitstunState.players.2.stance = Stance.standing ∧
    knifeHitstunState.players.2.state = PState.hitstun ∧
    knifeHitstunState.players.2.x = 280 ∧
    ((simulateFrame knifeHitstunState createEmptyInput createEmptyInput).projectiles.map
        (fun p => (p.x, p.height, p.active))) = [(308, Height.ankle, true)] ∧
    (simulateFrame knifeHitstunState createEmptyInput createEmptyInput).players.2.hp
      = MAX_HP := by
  decide

/-- Helper: a spawned knife takes its hit-detection height from the stance
the attack was declared under. -/
theorem knife_spawn_height (s : GameState) (i : Fin 2)
    (hw : (s.player i).activeWeapon = some WeaponId.throwingKnife) :
    ((spawnProjectile s i).projectiles.getLast?).map
        (fun p => (p.ptype, p.height)) =
      some (ProjType.knife,
        if (s.player i).attackStance = .crouching then Height.ankle else Height.head) := by
  unfold spawnProjectile
  dsimp only
  rw [hw]
  dsimp only
  rw [if_neg (show ¬ (WEAPON_DEFS WeaponId.throwingKnife).subtype
        = some WeaponSubtype.boomerang by decide)]
  rw [if_pos (show (WEAPON_DEFS WeaponId.throwingKnife).subtype
        = some WeaponSubtype.knife from rfl)]
  dsimp only
  rw [List.getLast?_concat]
  rfl

/-- Helper: an ankle projectile on a crouching, non-hitstunned defender
always resolves (block or hit) instead of passing over. -/
theorem ankle_resolves_on_croucher (s : GameState) (proj : Projectile)
    (hact : proj.active = true) (hh : proj.height = .ankle)
    (hstun : (s.player (1 - proj.owner)).state ≠ .hitstun)
    (hx1 : (s.player (1 - proj.owner)).x ≤ proj.x)
    (hx2 : proj.x ≤ (s.player (1 - proj.owner)).x + PLAYER_WIDTH)
    (hcr : (s.player (1 - proj.owner)).stance = .crouching) :
    (projectileHitCheck s proj).2.active = false := by
  by_cases hf : isFacingProjectile (s.player (1 - proj.owner)) proj
  · exact (projHit_blocked s proj hact (by rw [hh]; exact fun hc => Height.noConfusion hc)
      hstun hx1 hx2 ⟨hf, Or.inr ⟨hh, hcr⟩⟩).2.2.2.2
  · exact (projHit_connects s proj hact (by rw [hh]; exact fun hc => Height.noConfusion hc)
      hstun hx1 hx2
      (by rw [hh]; exact fun hc => Height.noConfusion hc.1)
      (by intro hc; exact hf hc.1)).2.2.2.2

/-- C10, amended.  A knife spawned by spawnProjectile is ankle-height when
the attack was declared from a crouch and head-height when declared
standing; an active ankle-height projectile that horizontally overlaps a
standing defender not already in hitstun always applies damage (the
standing shield never blocks it), putting the defender in hitstun with
clamped hp loss and consuming the projectile; and a crouching
non-hitstunned defender cannot avoid an ankle-height projectile: it always
resolves (block or hit) rather than passing over. -/
theorem knife_height_rule :
    (∀ (s : GameState) (i : Fin 2),
      (s.player i).activeWeapon = some WeaponId.throwingKnife →
      ((spawnProjectile s i).projectiles.getLast?).map
          (fun p => (p.ptype, p.height)) =
        some (ProjType.knife,
          if (s.player i).attackStance = .crouching then Height.ankle else Height.head)) ∧
    (∀ (s : GameState) (proj : Projectile),
      proj.active = true → proj.height = .ankle →
      (s.player (1 - proj.owner)).stance = .standing →
      (s.player (1 - proj.owner)).state ≠ .hitstun →
      (s.player (1 - proj.owner)).x ≤ proj.x →
      proj.x ≤ (s.player (1 - proj.owner)).x + PLAYER_WIDTH →
      ((projectileHitCheck s proj).1.player (1 - proj.owner)).state = .hitstun ∧
      ((projectileHitCheck s proj).1.player (1 - proj.owner)).hp =
        max 0 ((s.player (1 - proj.owner)).hp - proj.damage) ∧
      (projectileHitCheck s proj).1.hitstop = HITSTOP_HIT ∧
      (projectileHitCheck s proj).2.active = false) ∧
    (∀ (s : GameState) (proj : Projectile),
      proj.active = true → proj.height = .ankle →
      (s.player (1 - proj.owner)).stance = .crouching →
      (s.player (1 - proj.owner)).state ≠ .hitstun →
      (s.player (1 - proj.owner)).x ≤ proj.x →
      proj.x ≤ (s.player (1 - proj.owner)).x + PLAYER_WIDTH →
      (projectileHitCheck s proj).2.active = false) :=
  ⟨knife_spawn_height,
   fun s proj hact hh hstand hstun hx1 hx2 =>
     (let hc := projHit_connects s proj hact
        (by rw [hh]; exact fun hc => Height.noConfusion hc) hstun hx1 hx2
        (by rw [hh]; exact fun hc => Height.noConfusion hc.1)
        (by
          intro hc
          rcases hc.2 with ⟨h1, _⟩ | ⟨_, h2⟩
          · rw [hh] at h1
            exact Height.noConfusion h1
          · rw [hstand] at h2
            exact Stance.noConfusion h2)
      ⟨hc.1, hc.2.2.1, hc.2.2.2.1, hc.2.2.2.2⟩),
   fun s proj hact hh hcr hstun hx1 hx2 =>
     ankle_resolves_on_croucher s proj hact hh hstun hx1 hx2 hcr⟩

/-- C10, witness: a knife declared from the crouch of knifeReadyState
spawns at ankle height, and the ankle knife of knifeFacingState damages its
standing, non-hitstunned defender. -/
theorem knife_height_rule_witness :
    (((spawnProjectile knifeReadyState 0).projectiles.getLast?).map
        (fun p => (p.ptype, p.height)) =
      some (ProjType.knife,
        if (knifeReadyState.player 0).attackStance = .crouching then Height.ankle
        else Height.head)) ∧
    (((projectileHitCheck knifeFacingState ankleKnife).1.player
        (1 - ankleKnife.owner)).state = .hitstun ∧
     ((projectileHitCheck knifeFacingState ankleKnife).1.player
        (1 - ankleKnife.owner)).hp =
       max 0 ((knifeFacingState.player (1 - ankleKnife.owner)).hp - ankleKnife.damage) ∧
     (projectileHitCheck knifeFacingState ankleKnife).1.hitstop = HITSTOP_HIT ∧
     (projectileHitCheck knifeFacingState ankleKnife).2.active = false) :=
  ⟨knife_height_rule.1 knifeReadyState 0 (by decide),
   knife_height_rule.2.1 knifeFacingState ankleKnife (by decide) (by decide)
     (by decide) (by decide) (by decide) (by decide)⟩

/-- Helper: any state change that only touches hitstop keeps the players. -/
theorem player_withHitstop (s : GameState) (n : Nat) (i : Fin 2) :
    GameState.player { s with hitstop := n } i = s.player i := by
  simp [GameState.player]

/-- Helper: the hitstop-freeze record update keeps the players. -/
theorem player_withHitstopFrame (s : GameState) (n : Nat) (f : Nat) (i : Fin 2) :
    GameState.player { s with hitstop := n, frame := f } i = s.player i := by
  simp [GameState.player]

/-- Helper: the end-of-frame record update keeps the players. -/
theorem player_withPrevFrame (s : GameState) (pi : Input × Input) (f : Nat)
    (i : Fin 2) :
    GameState.player { s with prevInputs := pi, frame := f } i = s.player i := by
  simp [GameState.player]

/-- Helper: setting the winner keeps the players. -/
theorem player_withWinner (s : GameState) (w : Int) (i : Fin 2) :
    GameState.player { s with winner := w } i = s.player i := by
  simp [GameState.player]

/-- Helper: the timer section changes neither position, stance, ammo nor
the throw counters. -/
theorem playerTimerStep_keeps (p : Player) :
    (playerTimerStep p).x = p.x ∧ (playerTimerStep p).stance = p.stance ∧
    (playerTimerStep p).boomerangsHeld = p.boomerangsHeld ∧
    (playerTimerStep p).crouchThrowCount = p.crouchThrowCount ∧
    (playerTimerStep p).standThrowCount = p.standThrowCount := by
  unfold playerTimerStep
  dsimp only
  split_ifs <;> exact ⟨rfl, rfl, rfl, rfl, rfl⟩

/-- Helper: the movement section changes neither ammo nor the throw
counters. -/
theorem playerMoveStep_keeps (p : Player) (input : Input) :
    (playerMoveStep p input).boomerangsHeld = p.boomerangsHeld ∧
    (playerMoveStep p input).crouchThrowCount = p.crouchThrowCount ∧
    (playerMoveStep p input).standThrowCount = p.standThrowCount := by
  unfold playerMoveStep
  dsimp only
  split_ifs <;> exact ⟨rfl, rfl, rfl⟩

/-- Helper: a crouching player holding the crouch intent neither moves nor
leaves the crouch in the movement section. -/
theorem playerMoveStep_crouch (p : Player) (input : Input)
    (hst : p.stance = .crouching) (hcr : input.crouch = true) :
    (playerMoveStep p input).x = p.x ∧
    (playerMoveStep p input).stance = .crouching := by
  unfold playerMoveStep
  dsimp only
  split_ifs <;> simp_all

/-- Helper: tryAttack leaves the other player unchanged. -/
theorem tryAttack_player_other (s : GameState) (idx : Fin 2)
    (w : Option WeaponId) (j : Fin 2) (h : j ≠ idx) :
    (tryAttack s idx w).player j = s.player j := by
  unfold tryAttack
  cases w with
  | none => rfl
  | some wid =>
    dsimp only
    split_ifs
    · rfl
    · rw [player_setPlayer_other _ _ _ _ h]

/-- Helper: tryAttack changes neither position nor stance of the
attacker. -/
theorem tryAttack_self_xs (s : GameState) (idx : Fin 2) (w : Option WeaponId) :
    ((tryAttack s idx w).player idx).x = (s.player idx).x ∧
    ((tryAttack s idx w).player idx).stance = (s.player idx).stance := by
  unfold tryAttack
  cases w with
  | none => exact ⟨rfl, rfl⟩
  | some wid =>
    dsimp only
    split_ifs
    · exact ⟨rfl, rfl⟩
    · rw [player_setPlayer_self]
      exact ⟨rfl, rfl⟩

/-- Helper: spawnProjectile leaves the other player unchanged. -/
theorem spawnProjectile_player_other (s : GameState) (idx : Fin 2) (j : Fin 2)
    (h : j ≠ idx) : (spawnProjectile s idx).player j = s.player j := by
  unfold spawnProjectile
  dsimp only
  cases hw : (s.player idx).activeWeapon with
  | none => rfl
  | some wid =>
    dsimp only
    split_ifs
    all_goals first
      | rfl
      | rw [player_setPlayer_other _ _ _ _ h]
      | rw [player_withProjectiles, player_setPlayer_other _ _ _ _ h]
      | rw [player_withProjectiles]

/-- Helper: spawnProjectile changes neither position nor stance of the
thrower. -/
theorem spawnProjectile_self_xs (s : GameState) (idx : Fin 2) :
    ((spawnProjectile s idx).player idx).x = (s.player idx).x ∧
    ((spawnProjectile s idx).player idx).stance = (s.player idx).stance := by
  unfold spawnProjectile
  dsimp only
  cases hw : (s.player idx).activeWeapon with
  | none => exact ⟨rfl, rfl⟩
  | some wid =>
    dsimp only
    split_ifs
    all_goals first
      | exact ⟨rfl, rfl⟩
      | (rw [player_setPlayer_self]; exact ⟨rfl, rfl⟩)
      | (rw [player_withProjectiles, player_setPlayer_self]; exact ⟨rfl, rfl⟩)
      | (rw [player_withProjectiles]; exact ⟨rfl, rfl⟩)

/-- Helper: the attack section leaves the other player unchanged. -/
theorem playerAttackStep_player_other (s : GameState) (idx : Fin 2)
    (inp : Input) (j : Fin 2) (h : j ≠ idx) :
    (playerAttackStep s idx inp).player j = s.player j := by
  unfold playerAttackStep
  split
  · split
    · exact tryAttack_player_other _ _ _ _ h
    · rfl
  · rfl

/-- Helper: the attack section changes neither position nor stance. -/
theorem playerAttackStep_self_xs (s : GameState) (idx : Fin 2) (inp : Input) :
    ((playerAttackStep s idx inp).player idx).x = (s.player idx).x ∧
    ((playerAttackStep s idx inp).player idx).stance = (s.player idx).stance := by
  unfold playerAttackStep
  split
  · split
    · exact tryAttack_self_xs _ _ _
    · exact ⟨rfl, rfl⟩
  · exact ⟨rfl, rfl⟩

/-- Helper: the spawn section leaves the other player unchanged. -/
theorem projectileSpawnStep_player_other (s : GameState) (idx : Fin 2)
    (j : Fin 2) (h : j ≠ idx) :
    (projectileSpawnStep s idx).player j = s.player j := by
  unfold projectileSpawnStep
  dsimp only
  repeat' split
  all_goals first
    | rfl
    | rw [player_setPlayer_other _ _ _ _ h, spawnProjectile_player_other _ _ _ h]

/-- Helper: the spawn section changes neither position nor stance. -/
theorem projectileSpawnStep_self_xs (s : GameState) (idx : Fin 2) :
    ((projectileSpawnStep s idx).player idx).x = (s.player idx).x ∧
    ((projectileSpawnStep s idx).player idx).stance = (s.player idx).stance := by
  unfold projectileSpawnStep
  dsimp only
  repeat' split
  all_goals first
    | exact ⟨rfl, rfl⟩
    | (rw [player_setPlayer_self]
       exact ⟨(spawnProjectile_self_xs _ _).1, (spawnProjectile_self_xs _ _).2⟩)

/-- Helper: updatePlayer leaves the other player unchanged. -/
theorem updatePlayer_player_other (s : GameState) (idx : Fin 2) (inp : Input)
    (j : Fin 2) (h : j ≠ idx) :
    (updatePlayer s idx inp).player j = s.player j := by
  unfold updatePlayer
  rw [projectileSpawnStep_player_other _ _ _ h,
      playerAttackStep_player_other _ _ _ _ h,
      player_setPlayer_other _ _ _ _ h]

/-- Helper: position and stance after updatePlayer are exactly those
produced by the timer and movement sections. -/
theorem updatePlayer_self_xs (s : GameState) (idx : Fin 2) (inp : Input) :
    ((updatePlayer s idx inp).player idx).x
      = (playerMoveStep (playerTimerStep (s.player idx)) inp).x ∧
    ((updatePlayer s idx inp).player idx).stance
      = (playerMoveStep (playerTimerStep (s.player idx)) inp).stance := by
  unfold updatePlayer
  constructor
  · rw [(projectileSpawnStep_self_xs _ _).1, (playerAttackStep_self_xs _ _ _).1,
        player_setPlayer_self]
  · rw [(projectileSpawnStep_self_xs _ _).2, (playerAttackStep_self_xs _ _ _).2,
        player_setPlayer_self]

/-- Helper: applyDamage changes neither position nor stance. -/
theorem applyDamage_xs (s : GameState) (i : Fin 2) (dmg : Int) (j : Fin 2) :
    ((applyDamage s i dmg).player j).x = (s.player j).x ∧
    ((applyDamage s i dmg).player j).stance = (s.player j).stance := by
  unfold applyDamage
  rw [player_withHitstop]
  by_cases hj : j = i
  · subst hj
    rw [player_setPlayer_self]
    exact ⟨rfl, rfl⟩
  · rw [player_setPlayer_other _ _ _ _ hj]
    exact ⟨rfl, rfl⟩

/-- Helper: resolveHit changes neither position nor stance. -/
theorem resolveHit_xs (s : GameState) (ai di : Fin 2) (h : AttackHeight)
    (dmg : Int) (j : Fin 2) :
    ((resolveHit s ai di h dmg).player j).x = (s.player j).x ∧
    ((resolveHit s ai di h dmg).player j).stance = (s.player j).stance := by
  unfold resolveHit
  dsimp only
  split
  · rw [player_withHitstop]
    by_cases hj : j = di
    · subst hj
      rw [player_setPlayer_self]
      exact ⟨rfl, rfl⟩
    · rw [player_setPlayer_other _ _ _ _ hj]
      exact ⟨rfl, rfl⟩
  · exact applyDamage_xs _ _ _ _

/-- Helper: one melee check changes neither position nor stance. -/
theorem meleeCheckFor_xs (s : GameState) (i : Fin 2) (j : Fin 2) :
    ((meleeCheckFor s i).player j).x = (s.player j).x ∧
    ((meleeCheckFor s i).player j).stance = (s.player j).stance := by
  unfold meleeCheckFor
  dsimp only
  repeat' split
  all_goals first
    | exact ⟨rfl, rfl⟩
    | exact resolveHit_xs _ _ _ _ _ _

/-- Helper: melee resolution changes neither position nor stance. -/
theorem checkMeleeHits_xs (s : GameState) (j : Fin 2) :
    ((checkMeleeHits s).player j).x = (s.player j).x ∧
    ((checkMeleeHits s).player j).stance = (s.player j).stance := by
  unfold checkMeleeHits
  have h1 := meleeCheckFor_xs s 0 j
  have h2 := meleeCheckFor_xs (meleeCheckFor s 0) 1 j
  exact ⟨h2.1.trans h1.1, h2.2.trans h1.2⟩

/-- Helper: a boomerang update (including a catch) changes neither position
nor stance of any player. -/
theorem updateBoomerang_xs (s : GameState) (proj : Projectile) (j : Fin 2) :
    (((updateBoomerang s proj).1).player j).x = (s.player j).x ∧
    (((updateBoomerang s proj).1).player j).stance = (s.player j).stance := by
  unfold updateBoomerang
  dsimp only
  repeat' split
  all_goals try exact ⟨rfl, rfl⟩
  all_goals
    by_cases hj : j = proj.owner
  all_goals first
    | (subst hj; rw [player_setPlayer_self]; exact ⟨rfl, rfl⟩)
    | (rw [player_setPlayer_other _ _ _ _ hj]; exact ⟨rfl, rfl⟩)

/-- Helper: one projectile update changes neither position nor stance. -/
theorem stepProjectile_xs (s : GameState) (proj : Projectile) (j : Fin 2) :
    (((stepProjectile s proj).1).player j).x = (s.player j).x ∧
    (((stepProjectile s proj).1).player j).stance = (s.player j).stance := by
  unfold stepProjectile
  repeat' split
  all_goals first
    | exact ⟨rfl, rfl⟩
    | exact updateBoomerang_xs _ _ _

/-- Helper: the projectile pass changes neither position nor stance. -/
theorem runProjectilesList_xs (ps : List Projectile) :
    ∀ (s : GameState) (j : Fin 2),
    (((runProjectilesList s ps).1).player j).x = (s.player j).x ∧
    (((runProjectilesList s ps).1).player j).stance = (s.player j).stance := by
  induction ps with
  | nil => exact fun s j => ⟨rfl, rfl⟩
  | cons proj rest ih =>
    intro s j
    have h1 := stepProjectile_xs s proj j
    have h2 := ih (stepProjectile s proj).1 j
    exact ⟨h2.1.trans h1.1, h2.2.trans h1.2⟩

/-- Helper: updateProjectiles changes neither position nor stance. -/
theorem updateProjectiles_xs (s : GameState) (j : Fin 2) :
    ((updateProjectiles s).player j).x = (s.player j).x ∧
    ((updateProjectiles s).player j).stance = (s.player j).stance := by
  unfold updateProjectiles
  dsimp only
  rw [player_withProjectiles]
  exact runProjectilesList_xs _ _ _

/-- Helper: one projectile hit resolution changes neither position nor
stance. -/
theorem projectileHitCheck_xs (s : GameState) (proj : Projectile) (j : Fin 2) :
    (((projectileHitCheck s proj).1).player j).x = (s.player j).x ∧
    (((projectileHitCheck s proj).1).player j).stance = (s.player j).stance := by
  unfold projectileHitCheck
  dsimp only
  split
  · exact ⟨rfl, rfl⟩
  · split
    · exact ⟨rfl, rfl⟩
    · split
      · exact ⟨rfl, rfl⟩
      · split
        · split
          · exact ⟨rfl, rfl⟩
          · split
            · rw [player_withHitstop]
              by_cases hj : j = 1 - proj.owner
              · subst hj
                rw [player_setPlayer_self]
                exact ⟨rfl, rfl⟩
              · rw [player_setPlayer_other _ _ _ _ hj]
                exact ⟨rfl, rfl⟩
            · exact applyDamage_xs _ _ _ _
        · split
          · exact applyDamage_xs _ _ _ _
          · split
            · rw [player_withHitstop]
              by_cases hj : j = 1 - proj.owner
              · subst hj
                rw [player_setPlayer_self]
                exact ⟨rfl, rfl⟩
              · rw [player_setPlayer_other _ _ _ _ hj]
                exact ⟨rfl, rfl⟩
            · exact applyDamage_xs _ _ _ _
        · exact ⟨rfl, rfl⟩

/-- Helper: the projectile-hit pass changes neither position nor stance. -/
theorem runHitsList_xs (ps : List Projectile) :
    ∀ (s : GameState) (j : Fin 2),
    (((runHitsList s ps).1).player j).x = (s.player j).x ∧
    (((runHitsList s ps).1).player j).stance = (s.player j).stance := by
  induction ps with
  | nil => exact fun s j => ⟨rfl, rfl⟩
  | cons proj rest ih =>
    intro s j
    have h1 := projectileHitCheck_xs s proj j
    have h2 := ih (projectileHitCheck s proj).1 j
    exact ⟨h2.1.trans h1.1, h2.2.trans h1.2⟩

/-- Helper: checkProjectileHits changes neither position nor stance. -/
theorem checkProjectileHits_xs (s : GameState) (j : Fin 2) :
    ((checkProjectileHits s).player j).x = (s.player j).x ∧
    ((checkProjectileHits s).player j).stance = (s.player j).stance := by
  unfold checkProjectileHits
  dsimp only
  rw [player_withProjectiles]
  exact runHitsList_xs _ _ _

/-- Helper: checkWin changes neither position nor stance. -/
theorem checkWin_xs (s : GameState) (j : Fin 2) :
    ((checkWin s).player j).x = (s.player j).x ∧
    ((checkWin s).player j).stance = (s.player j).stance := by
  unfold checkWin
  dsimp only
  split_ifs <;> first
    | exact ⟨rfl, rfl⟩
    | (rw [player_withWinner]; exact ⟨rfl, rfl⟩)

/-- Helper: without body overlap the push-apart pass is the identity. -/
theorem resolvePlayerCollision_noOverlap (s : GameState)
    (h : noBodyOverlap s) : resolvePlayerCollision s = s := by
  unfold resolvePlayerCollision
  dsimp only
  rw [if_pos (show s.players.1.x + PLAYER_WIDTH ≤ s.players.2.x ∨
      s.players.2.x + PLAYER_WIDTH ≤ s.players.1.x from h)]

/-- Helper: the end-of-frame record rebuild keeps the players. -/
theorem player_endOfFrame (t : GameState) (pi : Input × Input) (i : Fin 2) :
    GameState.player
      { frame := t.frame + 1, players := t.players,
        projectiles := t.projectiles.filter (fun p => p.active),
        winner := t.winner, hitstop := t.hitstop, prevInputs := pi } i
      = t.player i := by
  simp [GameState.player]

/-- Helper: one Simulation Step with the crouch intent held and no body
push keeps the position and the crouching stance of player i. -/
theorem crouch_step (s : GameState) (a b : Input) (i : Fin 2)
    (hst : (s.player i).stance = .crouching)
    (hcr : (pairInput (a, b) i).crouch = true)
    (hnp : noBodyOverlap (updateBothPlayers s a b)) :
    ((simulateFrame s a b).player i).x = (s.player i).x ∧
    ((simulateFrame s a b).player i).stance = .crouching := by
  have hub : ((updateBothPlayers s a b).player i).x = (s.player i).x ∧
      ((updateBothPlayers s a b).player i).stance = .crouching := by
    unfold updateBothPlayers
    rcases (show i = 0 ∨ i = 1 by omega) with hi | hi <;> subst hi
    · have hcr0 : a.crouch = true := hcr
      have h1 := updatePlayer_self_xs s 0 a
      have hm := playerMoveStep_crouch (playerTimerStep (s.player 0)) a
        (by rw [(playerTimerStep_keeps _).2.1]; exact hst) hcr0
      have h2 := updatePlayer_player_other (updatePlayer s 0 a) 1 b 0 (by decide)
      constructor
      · rw [h2, h1.1, hm.1, (playerTimerStep_keeps _).1]
      · rw [h2, h1.2, hm.2]
    · have hcr1 : b.crouch = true := hcr
      have h0 := updatePlayer_player_other s 0 a 1 (by decide)
      have h1 := updatePlayer_self_xs (updatePlayer s 0 a) 1 b
      have hstance1 : ((updatePlayer s 0 a).player 1).stance = .crouching := by
        rw [h0]; exact hst
      have hm := playerMoveStep_crouch
        (playerTimerStep ((updatePlayer s 0 a).player 1)) b
        (by rw [(playerTimerStep_keeps _).2.1]; exact hstance1) hcr1
      constructor
      · rw [h1.1, hm.1, (playerTimerStep_keeps _).1, h0]
      · rw [h1.2, hm.2]
  unfold simulateFrame cloneState
  dsimp only
  split
  · exact ⟨rfl, hst⟩
  · split
    · rw [player_withHitstopFrame]
      exact ⟨rfl, hst⟩
    · rw [resolvePlayerCollision_noOverlap _ hnp]
      constructor
      · rw [player_endOfFrame,
            (checkWin_xs _ _).1, (checkProjectileHits_xs _ _).1,
            (checkMeleeHits_xs _ _).1, (updateProjectiles_xs _ _).1]
        exact hub.1
      · rw [player_endOfFrame,
            (checkWin_xs _ _).2, (checkProjectileHits_xs _ _).2,
            (checkMeleeHits_xs _ _).2, (updateProjectiles_xs _ _).2]
        exact hub.2

/-- C9, counterexample.  A crouching idle player holding crouch is moved by
the body push-apart correction when the opponent walks into it: from
pushState (walker at 555 moving right, croucher at 600), one Simulation
Step moves the crouching player from 600 to 603 although its own intents
are crouch only, so the claim that the position is unchanged regardless of
the left/right intents supplied to the Simulation Steps is false as
stated. -/
theorem crouch_lock_push_counterexample :
    pushState.players.2.stance = Stance.crouching ∧
    pushState.players.2.state = PState.idle ∧
    pushInputB.crouch = true ∧
    pushState.players.2.x = 600 ∧
    (simulateFrame pushState pushInputA pushInputB).players.2.x = 603 := by
  decide

/-- C9, amended.  Crouch lock: for every player whose stance is crouching,
and any number of consecutive Simulation Steps during which that player
holds the crouch intent and no body push-apart correction occurs (the two
bodies never overlap after the per-player movement updates), the player's
horizontal position is unchanged, regardless of all other intents supplied
on those ticks (including while idle). -/
theorem crouch_lock (i : Fin 2) :
    ∀ (inputs : List (Input × Input)) (s : GameState),
    (s.player i).stance = .crouching →
    CrouchRun i s inputs →
    ((simSeq s inputs).player i).x = (s.player i).x := by
  intro inputs
  induction inputs with
  | nil =>
    intro s hst hrun
    rfl
  | cons ab rest ih =>
    intro s hst hrun
    cases hrun with
    | cons _ _ _ hcr hnp hrest =>
      have hstep := crouch_step s ab.1 ab.2 i hst hcr hnp
      rw [show simSeq s (ab :: rest) = simSeq (simulateFrame s ab.1 ab.2) rest from rfl]
      rw [ih (simulateFrame s ab.1 ab.2) hstep.2 hrest, hstep.1]

/-- C9, witness: two Simulation Steps on crouchFarState with the walker far
away leave the crouching player at x = 600. -/
theorem crouch_lock_witness :
    ((simSeq crouchFarState crouchRunInputs).player 1).x
      = (crouchFarState.player 1).x :=
  crouch_lock 1 crouchRunInputs crouchFarState (by decide)
    (CrouchRun.cons _ _ _ (by decide)
      (by unfold noBodyOverlap; decide)
      (CrouchRun.cons _ _ _ (by decide)
        (by unfold noBodyOverlap; decide)
        (CrouchRun.nil _)))

/-- Helper: flightCount unfolds on a cons cell. -/
theorem flightCount_cons (i : Fin 2) (p : Projectile) (ps : List Projectile) :
    flightCount i (p :: ps) = projCount p i + flightCount i ps := rfl

/-- Helper: flightCount is additive on list append. -/
theorem flightCount_append (i : Fin 2) (xs ys : List Projectile) :
    flightCount i (xs ++ ys) = flightCount i xs + flightCount i ys := by
  induction xs with
  | nil => simp [flightCount]
  | cons p rest ih =>
    rw [List.cons_append, flightCount_cons, flightCount_cons, ih]
    omega

/-- Helper: dropping inactive projectiles keeps the in-flight count. -/
theorem flightCount_filter_active (i : Fin 2) (ps : List Projectile) :
    flightCount i (ps.filter (fun p => p.active)) = flightCount i ps := by
  induction ps with
  | nil => rfl
  | cons p rest ih =>
    rw [flightCount_cons]
    cases ha : p.active with
    | true =>
      rw [List.filter_cons_of_pos (by simp [ha]), flightCount_cons, ih]
    | false =>
      rw [List.filter_cons_of_neg (by simp [ha])]
      rw [ih]
      unfold projCount
      rw [if_neg (by simp [ha])]
      omega

/-- Congruence: a state with the same held ammo and the same projectile
list satisfies the invariant. -/
theorem ammoInv_congr (s t : GameState)
    (hh : ∀ i, (t.player i).boomerangsHeld = (s.player i).boomerangsHeld)
    (hp : t.projectiles = s.projectiles) (h : AmmoInv s) : AmmoInv t := by
  intro i
  rw [hh i, hp]
  exact h i

/-- Helper: applyDamage touches neither ammo nor the projectile list. -/
theorem applyDamage_held (s : GameState) (i : Fin 2) (dmg : Int) (j : Fin 2) :
    ((applyDamage s i dmg).player j).boomerangsHeld
      = (s.player j).boomerangsHeld ∧
    (applyDamage s i dmg).projectiles = s.projectiles := by
  unfold applyDamage
  constructor
  · rw [player_withHitstop]
    by_cases hj : j = i
    · subst hj
      rw [player_setPlayer_self]
    · rw [player_setPlayer_other _ _ _ _ hj]
  · show (s.setPlayer i _).projectiles = s.projectiles
    exact projectiles_setPlayer _ _ _

/-- Helper: resolveHit touches neither ammo nor the projectile list. -/
theorem resolveHit_held (s : GameState) (ai di : Fin 2) (h : AttackHeight)
    (dmg : Int) (j : Fin 2) :
    ((resolveHit s ai di h dmg).player j).boomerangsHeld
      = (s.player j).boomerangsHeld ∧
    (resolveHit s ai di h dmg).projectiles = s.projectiles := by
  unfold resolveHit
  dsimp only
  split
  · constructor
    · rw [player_withHitstop]
      by_cases hj : j = di
      · subst hj
        rw [player_setPlayer_self]
      · rw [player_setPlayer_other _ _ _ _ hj]
    · show (s.setPlayer di _).projectiles = s.projectiles
      exact projectiles_setPlayer _ _ _
  · exact applyDamage_held _ _ _ _

/-- Helper: a melee check touches neither ammo nor the projectile list. -/
theorem meleeCheckFor_held (s : GameState) (i : Fin 2) (j : Fin 2) :
    ((meleeCheckFor s i).player j).boomerangsHeld
      = (s.player j).boomerangsHeld ∧
    (meleeCheckFor s i).projectiles = s.projectiles := by
  unfold meleeCheckFor
  dsimp only
  repeat' split
  all_goals first
    | exact ⟨rfl, rfl⟩
    | exact resolveHit_held _ _ _ _ _ _

/-- Helper: checkMeleeHits preserves the ammo invariant. -/
theorem checkMeleeHits_ammoInv (s : GameState) (h : AmmoInv s) :
    AmmoInv (checkMeleeHits s) := by
  refine ammoInv_congr s _ (fun i => ?_) ?_ h
  · unfold checkMeleeHits
    rw [(meleeCheckFor_held _ 1 i).1, (meleeCheckFor_held _ 0 i).1]
  · unfold checkMeleeHits
    exact (meleeCheckFor_held _ 1 0).2.trans (meleeCheckFor_held s 0 0).2

/-- Helper: checkWin preserves the ammo invariant. -/
theorem checkWin_ammoInv (s : GameState) (h : AmmoInv s) :
    AmmoInv (checkWin s) := by
  refine ammoInv_congr s _ (fun i => ?_) ?_ h
  · unfold checkWin
    dsimp only
    split_ifs <;> first
      | rfl
      | (rw [player_withWinner])
  · unfold checkWin
    dsimp only
    split_ifs <;> rfl

/-- Helper: tryAttack touches neither ammo nor the projectile list. -/
theorem tryAttack_held (s : GameState) (idx : Fin 2) (w : Option WeaponId)
    (j : Fin 2) :
    ((tryAttack s idx w).player j).boomerangsHeld
      = (s.player j).boomerangsHeld ∧
    (tryAttack s idx w).projectiles = s.projectiles := by
  unfold tryAttack
  cases w with
  | none => exact ⟨rfl, rfl⟩
  | some wid =>
    dsimp only
    split_ifs
    · exact ⟨rfl, rfl⟩
    · constructor
      · by_cases hj : j = idx
        · subst hj
          rw [player_setPlayer_self]
        · rw [player_setPlayer_other _ _ _ _ hj]
      · exact projectiles_setPlayer _ _ _

/-- Helper: tryAttack refuses to start a boomerang attack at zero ammo. -/
theorem tryAttack_boomerang_refused (s : GameState) (idx : Fin 2)
    (ha : (s.player idx).boomerangsHeld ≤ 0) :
    tryAttack s idx (some WeaponId.boomerang) = s := by
  unfold tryAttack
  dsimp only
  rw [if_pos ⟨show (WEAPON_DEFS WeaponId.boomerang).subtype
      = some WeaponSubtype.boomerang from rfl, ha⟩]

/-- Helper: spawnProjectile refuses a boomerang throw at zero ammo. -/
theorem spawnProjectile_boomerang_refused (s : GameState) (idx : Fin 2)
    (hw : (s.player idx).activeWeapon = some WeaponId.boomerang)
    (ha : (s.player idx).boomerangsHeld ≤ 0) :
    spawnProjectile s idx = s := by
  unfold spawnProjectile
  dsimp only
  rw [hw]
  dsimp only
  rw [if_pos (show (WEAPON_DEFS WeaponId.boomerang).subtype
      = some WeaponSubtype.boomerang from rfl)]
  rw [if_pos ha]

/-- Helper: a boomerang throw decrements the held ammo by one and appends
one projectile. -/
theorem spawnProjectile_boomerang_throw (s : GameState) (idx : Fin 2)
    (hw : (s.player idx).activeWeapon = some WeaponId.boomerang)
    (ha : 0 < (s.player idx).boomerangsHeld) :
    ((spawnProjectile s idx).player idx).boomerangsHeld
      = (s.player idx).boomerangsHeld - 1 ∧
    (spawnProjectile s idx).projectiles.length = s.projectiles.length + 1 := by
  unfold spawnProjectile
  dsimp only
  rw [hw]
  dsimp only
  rw [if_pos (show (WEAPON_DEFS WeaponId.boomerang).subtype
      = some WeaponSubtype.boomerang from rfl)]
  rw [if_neg (by omega)]
  constructor
  · split_ifs <;> (rw [player_withProjectiles, player_setPlayer_self])
  · split_ifs <;>
      (show ((s.setPlayer idx _).projectiles ++ _).length = _
       rw [List.length_append, projectiles_setPlayer])
    all_goals rfl

/-- Helper: a catch on the return leg restores one unit of ammo clamped to
the maximum and deactivates the boomerang. -/
theorem boomerang_catch_restores (s : GameState) (proj : Projectile)
    (hph : proj.phase = .returning)
    (hc : |proj.x + proj.direction * proj.speed
        - ((s.player proj.owner).x + PLAYER_WIDTH / 2)| < 28) :
    ((updateBoomerang s proj).1.player proj.owner).boomerangsHeld
      = min ((s.player proj.owner).boomerangsHeld + 1) BOOMERANG_MAX ∧
    (updateBoomerang s proj).2.active = false := by
  unfold updateBoomerang
  dsimp only
  rw [hph]
  dsimp only
  rw [if_pos hc]
  rw [player_setPlayer_self]
  exact ⟨rfl, rfl⟩

/-- Helper: one projectile step never lowers the held ammo of a player,
keeps it at most the maximum, and never raises held ammo plus the in-flight
contribution of the stepped projectile. -/
theorem stepProjectile_ammo (s : GameState) (proj : Projectile) (i : Fin 2)
    (h10 : (s.player i).boomerangsHeld ≤ BOOMERANG_MAX) :
    (s.player i).boomerangsHeld
        ≤ ((stepProjectile s proj).1.player i).boomerangsHeld ∧
    ((stepProjectile s proj).1.player i).boomerangsHeld ≤ BOOMERANG_MAX ∧
    ((stepProjectile s proj).1.player i).boomerangsHeld
        + (projCount (stepProjectile s proj).2 i : Int)
      ≤ (s.player i).boomerangsHeld + (projCount proj i : Int) := by
  unfold stepProjectile
  dsimp only
  split
  · exact ⟨le_refl _, h10, le_refl _⟩
  · rename_i hactive
    split
    · rename_i hknife
      dsimp only
      split
      · exact ⟨le_refl _, h10, by simp [projCount, hknife]⟩
      · exact ⟨le_refl _, h10, by simp [projCount, hknife]⟩
    · rename_i hboom
      have hact : proj.active = true := by
        cases hpa : proj.active
        · exact absurd hpa hactive
        · rfl
      unfold updateBoomerang
      dsimp only
      split
      · split
        · exact ⟨le_refl _, h10, by simp [projCount, hboom, hact]⟩
        · exact ⟨le_refl _, h10, by simp [projCount, hboom, hact]⟩
      · split
        · by_cases hi : i = proj.owner
          · subst hi
            rw [player_setPlayer_self]
            dsimp only
            simp only [projCount, hboom, hact]
            simp only [true_and, and_true]
            constructor
            · omega
            constructor
            · omega
            · simp
          · rw [player_setPlayer_other _ _ _ _ hi]
            refine ⟨le_refl _, h10, ?_⟩
            have hoi : ¬ proj.owner = i := fun hc => hi hc.symm
            simp [projCount, hboom, hact, hoi]
        · split
          · exact ⟨le_refl _, h10, by simp [projCount]; omega⟩
          · exact ⟨le_refl _, h10, by simp [projCount, hboom, hact]⟩

/-- Helper: the projectile pass, over a whole list. -/
theorem runProjectilesList_ammo (ps : List Projectile) (s : GameState)
    (i : Fin 2) (h10 : (s.player i).boomerangsHeld ≤ BOOMERANG_MAX) :
    (s.player i).boomerangsHeld
        ≤ ((runProjectilesList s ps).1.player i).boomerangsHeld ∧
    ((runProjectilesList s ps).1.player i).boomerangsHeld ≤ BOOMERANG_MAX ∧
    ((runProjectilesList s ps).1.player i).boomerangsHeld
        + (flightCount i (runProjectilesList s ps).2 : Int)
      ≤ (s.player i).boomerangsHeld + (flightCount i ps : Int) := by
  induction ps generalizing s with
  | nil => exact ⟨le_refl _, h10, le_refl _⟩
  | cons p rest ih =>
    have hstep := stepProjectile_ammo s p i h10
    have hrest := ih (stepProjectile s p).1 hstep.2.1
    unfold runProjectilesList
    dsimp only
    refine ⟨hstep.1.trans hrest.1, hrest.2.1, ?_⟩
    rw [flightCount_cons, flightCount_cons]
    have h1 := hrest.2.2
    have h2 := hstep.2.2
    push_cast at h1 h2 ⊢
    omega

/-- Helper: updateProjectiles preserves the ammo invariant. -/
theorem updateProjectiles_ammoInv (s : GameState) (h : AmmoInv s) :
    AmmoInv (updateProjectiles s) := by
  intro i
  obtain ⟨h0, hsum⟩ := h i
  have h10 : (s.player i).boomerangsHeld ≤ BOOMERANG_MAX := by
    have : (0 : Int) ≤ (flightCount i s.projectiles : Int) := Int.ofNat_nonneg _
    omega
  have hr := runProjectilesList_ammo s.projectiles s i h10
  unfold updateProjectiles
  dsimp only
  rw [player_withProjectiles]
  constructor
  · exact h0.trans hr.1
  · have := hr.2.2
    omega

/-- Helper: a projectile hit check keeps every held count and never raises
the in-flight contribution of the projectile. -/
theorem projectileHitCheck_ammo (s : GameState) (proj : Projectile)
    (i : Fin 2) :
    ((projectileHitCheck s proj).1.player i).boomerangsHeld
      = (s.player i).boomerangsHeld ∧
    projCount (projectileHitCheck s proj).2 i ≤ projCount proj i := by
  unfold projectileHitCheck
  dsimp only
  repeat' split
  all_goals first
    | exact ⟨rfl, le_refl _⟩
    | refine ⟨?_, by simp [projCount]⟩
  all_goals first
    | exact (applyDamage_held _ _ _ _).1
    | (rw [player_withHitstop]
       by_cases hj : i = 1 - proj.owner
       · subst hj
         rw [player_setPlayer_self]
       · rw [player_setPlayer_other _ _ _ _ hj])

/-- Helper: the hit pass, over a whole list. -/
theorem runHitsList_ammo (ps : List Projectile) (s : GameState) (i : Fin 2) :
    ((runHitsList s ps).1.player i).boomerangsHeld
      = (s.player i).boomerangsHeld ∧
    flightCount i (runHitsList s ps).2 ≤ flightCount i ps := by
  induction ps generalizing s with
  | nil => exact ⟨rfl, le_refl _⟩
  | cons p rest ih =>
    have hstep := projectileHitCheck_ammo s p i
    have hrest := ih (projectileHitCheck s p).1
    unfold runHitsList
    dsimp only
    refine ⟨hrest.1.trans hstep.1, ?_⟩
    rw [flightCount_cons, flightCount_cons]
    have := hrest.2
    have := hstep.2
    omega

/-- Helper: checkProjectileHits preserves the ammo invariant. -/
theorem checkProjectileHits_ammoInv (s : GameState) (h : AmmoInv s) :
    AmmoInv (checkProjectileHits s) := by
  intro i
  obtain ⟨h0, hsum⟩ := h i
  have hr := runHitsList_ammo s.projectiles s i
  unfold checkProjectileHits
  dsimp only
  rw [player_withProjectiles, hr.1]
  refine ⟨h0, ?_⟩
  have := hr.2
  omega

/-- Helper: spawnProjectile preserves the ammo invariant: a boomerang
throw trades one unit of held ammo for one active in-flight boomerang. -/
theorem spawnProjectile_ammoInv (s : GameState) (idx : Fin 2)
    (h : AmmoInv s) : AmmoInv (spawnProjectile s idx) := by
  unfold spawnProjectile
  dsimp only
  split
  · exact h
  · split
    · split
      · exact h
      · rename_i hz
        intro i
        rw [player_withProjectiles]
        show _ ∧ _ + (flightCount i ((s.setPlayer idx _).projectiles ++ _) : Int) ≤ _
        rw [projectiles_setPlayer, flightCount_append]
        by_cases hi : i = idx
        · subst hi
          rw [player_setPlayer_self]
          obtain ⟨h0, hsum⟩ := h i
          constructor
          · split_ifs <;> (dsimp only; omega)
          · split_ifs <;>
              (dsimp only
               simp only [flightCount, projCount]
               simp
               push_cast
               omega)
        · rw [player_setPlayer_other _ _ _ _ hi]
          obtain ⟨h0, hsum⟩ := h i
          refine ⟨h0, ?_⟩
          have hoi : ¬ idx = i := fun hc => hi hc.symm
          split_ifs <;>
            (simp only [flightCount, projCount]
             simp [hoi]
             push_cast
             omega)
    · split
      · intro i
        rw [player_withProjectiles, flightCount_append]
        obtain ⟨h0, hsum⟩ := h i
        refine ⟨h0, ?_⟩
        simp only [flightCount, projCount]
        simp
        push_cast
        omega
      · exact h

/-- Helper: the push-apart section moves only positions. -/
theorem pushApart_boom (a b : Player) :
    (pushApart a b).1.boomerangsHeld = a.boomerangsHeld ∧
    (pushApart a b).2.boomerangsHeld = b.boomerangsHeld := by
  unfold pushApart
  dsimp only
  split_ifs <;> exact ⟨rfl, rfl⟩

/-- Helper: the first wall-transfer iteration moves only positions. -/
theorem wallShiftA_boom (ab : Player × Player) :
    (wallShiftA ab).1.boomerangsHeld = ab.1.boomerangsHeld ∧
    (wallShiftA ab).2.boomerangsHeld = ab.2.boomerangsHeld := by
  unfold wallShiftA
  dsimp only
  split_ifs <;> exact ⟨rfl, rfl⟩

/-- Helper: the second wall-transfer iteration moves only positions. -/
theorem wallShiftB_boom (ab : Player × Player) :
    (wallShiftB ab).1.boomerangsHeld = ab.1.boomerangsHeld ∧
    (wallShiftB ab).2.boomerangsHeld = ab.2.boomerangsHeld := by
  unfold wallShiftB
  dsimp only
  split_ifs <;> exact ⟨rfl, rfl⟩

/-- Helper: the final clamp moves only positions. -/
theorem clampPair_boom (ab : Player × Player) :
    (clampPair ab).1.boomerangsHeld = ab.1.boomerangsHeld ∧
    (clampPair ab).2.boomerangsHeld = ab.2.boomerangsHeld := ⟨rfl, rfl⟩

/-- Helper: reading a player after replacing the players pair. -/
theorem player_withPlayers (s : GameState) (ab : Player × Player) :
    GameState.player { s with players := ab } 0 = ab.1 ∧
    GameState.player { s with players := ab } 1 = ab.2 := by
  constructor <;> simp [GameState.player]

/-- Helper: the body push-apart touches neither ammo nor the projectile
list. -/
theorem resolvePlayerCollision_held (s : GameState) (i : Fin 2) :
    ((resolvePlayerCollision s).player i).boomerangsHeld
      = (s.player i).boomerangsHeld ∧
    (resolvePlayerCollision s).projectiles = s.projectiles := by
  unfold resolvePlayerCollision
  dsimp only
  split
  · exact ⟨rfl, rfl⟩
  · refine ⟨?_, rfl⟩
    rcases (show i = 0 ∨ i = 1 by omega) with hi | hi <;> subst hi
    · rw [(player_withPlayers _ _).1, (clampPair_boom _).1, (wallShiftB_boom _).1,
        (wallShiftA_boom _).1, (pushApart_boom _ _).1]
      simp [GameState.player]
    · rw [(player_withPlayers _ _).2, (clampPair_boom _).2, (wallShiftB_boom _).2,
        (wallShiftA_boom _).2, (pushApart_boom _ _).2]
      simp [GameState.player]

/-- Helper: the projectile-spawn section preserves the ammo invariant. -/
theorem projectileSpawnStep_ammoInv (s : GameState) (idx : Fin 2)
    (h : AmmoInv s) : AmmoInv (projectileSpawnStep s idx) := by
  unfold projectileSpawnStep
  dsimp only
  split
  · split
    · exact h
    · split
      · split
        · refine ammoInv_congr (spawnProjectile s idx) _ (fun i => ?_) ?_
            (spawnProjectile_ammoInv s idx h)
          · by_cases hi : i = idx
            · subst hi
              rw [player_setPlayer_self]
            · rw [player_setPlayer_other _ _ _ _ hi]
          · exact projectiles_setPlayer _ _ _
        · exact h
      · exact h
  · exact h

/-- Helper: the attack-trigger section preserves the ammo invariant. -/
theorem playerAttackStep_ammoInv (s : GameState) (idx : Fin 2)
    (input : Input) (h : AmmoInv s) :
    AmmoInv (playerAttackStep s idx input) := by
  unfold playerAttackStep
  split
  · split
    · refine ammoInv_congr s _ (fun i => ?_) ?_ h
      · exact (tryAttack_held _ _ _ _).1
      · exact (tryAttack_held _ _ _ 0).2
    · exact h
  · exact h

/-- Helper: updatePlayer preserves the ammo invariant. -/
theorem updatePlayer_ammoInv (s : GameState) (idx : Fin 2) (input : Input)
    (h : AmmoInv s) : AmmoInv (updatePlayer s idx input) := by
  unfold updatePlayer
  dsimp only
  refine projectileSpawnStep_ammoInv _ _ (playerAttackStep_ammoInv _ _ _ ?_)
  refine ammoInv_congr s _ (fun i => ?_) (projectiles_setPlayer _ _ _) h
  by_cases hi : i = idx
  · subst hi
    rw [player_setPlayer_self]
    rw [(playerMoveStep_keeps _ input).1, (playerTimerStep_keeps _).2.2.1]
  · rw [player_setPlayer_other _ _ _ _ hi]

/-- Helper: the body push-apart preserves the ammo invariant. -/
theorem resolvePlayerCollision_ammoInv (s : GameState) (h : AmmoInv s) :
    AmmoInv (resolvePlayerCollision s) := by
  refine ammoInv_congr s _ (fun i => ?_) ?_ h
  · exact (resolvePlayerCollision_held s i).1
  · exact (resolvePlayerCollision_held s 0).2

/-- Helper: one Simulation Step preserves the ammo invariant. -/
theorem simulateFrame_ammoInv (s : GameState) (a b : Input)
    (h : AmmoInv s) : AmmoInv (simulateFrame s a b) := by
  unfold simulateFrame cloneState
  dsimp only
  split
  · exact h
  · split
    · refine ammoInv_congr s _ (fun i => ?_) rfl h
      exact congrArg Player.boomerangsHeld
        (player_withHitstopFrame s (s.hitstop - 1) (s.frame + 1) i)
    · have ht : AmmoInv (checkWin (checkProjectileHits (checkMeleeHits
          (updateProjectiles (resolvePlayerCollision
            (updateBothPlayers s a b)))))) := by
        refine checkWin_ammoInv _ (checkProjectileHits_ammoInv _
          (checkMeleeHits_ammoInv _ (updateProjectiles_ammoInv _
            (resolvePlayerCollision_ammoInv _ ?_))))
        exact updatePlayer_ammoInv _ 1 b (updatePlayer_ammoInv _ 0 a h)
      intro i
      rw [player_endOfFrame]
      obtain ⟨h0, hsum⟩ := ht i
      refine ⟨h0, ?_⟩
      rw [flightCount_filter_active]
      exact hsum

/-- Helper: the initial match state satisfies the ammo invariant. -/
theorem createGameState_ammoInv (w1 w2 : List WeaponId) :
    AmmoInv (createGameState w1 w2) := by
  intro i
  rcases (show i = 0 ∨ i = 1 by omega) with hi | hi <;> subst hi <;>
    simp [createGameState, createPlayerState, GameState.player, flightCount,
      BOOMERANG_MAX]

/-- Helper: every reachable state satisfies the ammo invariant. -/
theorem reachable_ammoInv (s : GameState) (h : ReachableG s) : AmmoInv s := by
  induction h with
  | init w1 w2 => exact createGameState_ammoInv w1 w2
  | step s a b _ ih => exact simulateFrame_ammoInv s a b ih

/-- C6: in every state reachable from the initial match state by
Simulation Steps, each player holds a non-negative boomerang ammo count and
ammo held plus that players active in-flight boomerangs never exceeds
BOOMERANG_MAX; a boomerang throw decrements ammo by one and appends one
projectile, a catch restores one unit clamped to the maximum and
deactivates the boomerang, and a throw is refused outright when ammo is
zero. -/
theorem boomerang_conservation :
    (∀ s, ReachableG s → AmmoInv s) ∧
    (∀ (s : GameState) (idx : Fin 2),
      (s.player idx).activeWeapon = some WeaponId.boomerang →
      0 < (s.player idx).boomerangsHeld →
      ((spawnProjectile s idx).player idx).boomerangsHeld
        = (s.player idx).boomerangsHeld - 1 ∧
      (spawnProjectile s idx).projectiles.length
        = s.projectiles.length + 1) ∧
    (∀ (s : GameState) (proj : Projectile),
      proj.phase = .returning →
      |proj.x + proj.direction * proj.speed
         - ((s.player proj.owner).x + PLAYER_WIDTH / 2)| < 28 →
      ((updateBoomerang s proj).1.player proj.owner).boomerangsHeld
        = min ((s.player proj.owner).boomerangsHeld + 1) BOOMERANG_MAX ∧
      (updateBoomerang s proj).2.active = false) ∧
    (∀ (s : GameState) (idx : Fin 2),
      (s.player idx).activeWeapon = some WeaponId.boomerang →
      (s.player idx).boomerangsHeld = 0 →
      spawnProjectile s idx = s) := by
  refine ⟨fun s h => reachable_ammoInv s h,
    fun s idx hw ha => spawnProjectile_boomerang_throw s idx hw ha,
    fun s proj hph hc => boomerang_catch_restores s proj hph hc,
    fun s idx hw ha => spawnProjectile_boomerang_refused s idx hw (by omega)⟩

/-- Witness for C6 at concrete states: the initial match state, a full
ammo crouch throw, a catch next to the owner, and a zero-ammo refusal. -/
theorem boomerang_conservation_witness :
    AmmoInv (createGameState [WeaponId.boomerang] [WeaponId.sword]) ∧
    (((spawnProjectile throwReadyState 0).player 0).boomerangsHeld
        = (throwReadyState.player 0).boomerangsHeld - 1 ∧
     (spawnProjectile throwReadyState 0).projectiles.length
        = throwReadyState.projectiles.length + 1) ∧
    (((updateBoomerang demoState returningBoomerang).1.player
          returningBoomerang.owner).boomerangsHeld
        = min ((demoState.player returningBoomerang.owner).boomerangsHeld + 1)
            BOOMERANG_MAX ∧
     (updateBoomerang demoState returningBoomerang).2.active = false) ∧
    spawnProjectile zeroAmmoState 0 = zeroAmmoState :=
  ⟨boomerang_conservation.1 _ (ReachableG.init _ _),
   boomerang_conservation.2.1 throwReadyState 0 rfl (by decide),
   boomerang_conservation.2.2.1 demoState returningBoomerang rfl (by decide),
   boomerang_conservation.2.2.2 zeroAmmoState 0 rfl (by decide)⟩
